import Mathlib

/-!
Verification development for the swing-trading pattern-detection pipeline
(`backend/engines/engine0.py` … `engine5.py` and `backend/indicators.py`).

The Python code is shallowly embedded over `ℚ`: Python floats are modelled as
exact rationals, `round(x, n)` as banker's rounding (`pyRound`) scaled by
`10^n`, pandas series as `List ℚ` (the embedded series are NaN-free; the
claims under study quantify over emitted records, and the NaN branches of the
code emit nothing).  Calls into scipy (`curve_fit`, `gaussian_kde`,
`find_peaks`) are external library calls and enter the embedding as oracle
parameters carrying the value the library returned; everything computed by
the repository itself is translated directly.
-/

namespace Swing

/-- Python's built-in `round` on a rational: round half to even. -/
def pyRound (x : ℚ) : ℤ :=
  if x - (⌊x⌋ : ℚ) < 1/2 then ⌊x⌋
  else if 1/2 < x - (⌊x⌋ : ℚ) then ⌊x⌋ + 1
  else if ⌊x⌋ % 2 = 0 then ⌊x⌋ else ⌊x⌋ + 1

/-- Python's `round(x, p)`: banker's rounding at `p` decimal places. -/
def roundN (p : ℕ) (x : ℚ) : ℚ :=
  (pyRound ((10 : ℚ) ^ p * x) : ℚ) / (10 : ℚ) ^ p

/-- `round(x, 2)` as used throughout the engines' price math. -/
def round2 (x : ℚ) : ℚ := roundN 2 x

/-- `round(x, 4)` as used for `rs_vs_spy`. -/
def round4 (x : ℚ) : ℚ := roundN 4 x

/-- `round(x, 1)` as used for `tr_contraction_pct`. -/
def round1 (x : ℚ) : ℚ := roundN 1 x

theorem pyRound_ge_floor (x : ℚ) : ⌊x⌋ ≤ pyRound x := by
  unfold pyRound
  split
  · exact le_refl _
  · split
    · exact le_of_lt (lt_add_one _)
    · split
      · exact le_refl _
      · exact le_of_lt (lt_add_one _)

theorem pyRound_le_floor_add_one (x : ℚ) : pyRound x ≤ ⌊x⌋ + 1 := by
  unfold pyRound
  split
  · exact le_of_lt (lt_add_one _)
  · split
    · exact le_refl _
    · split
      · exact le_of_lt (lt_add_one _)
      · exact le_refl _

theorem pyRound_intCast (n : ℤ) : pyRound (n : ℚ) = n := by
  unfold pyRound
  have hf : ⌊(n : ℚ)⌋ = n := Int.floor_intCast n
  rw [hf]
  simp

/-- If `pyRound` rounds up, the fractional part is at least `1/2`. -/
theorem pyRound_eq_floor_add_one_imp (x : ℚ) (h : pyRound x = ⌊x⌋ + 1) :
    (1:ℚ)/2 ≤ x - ⌊x⌋ := by
  by_contra hc
  push_neg at hc
  unfold pyRound at h
  rw [if_pos hc] at h
  omega

/-- If `pyRound` rounds down, the fractional part is at most `1/2`. -/
theorem pyRound_eq_floor_imp (x : ℚ) (h : pyRound x = ⌊x⌋) :
    x - ⌊x⌋ ≤ (1:ℚ)/2 := by
  by_contra hc
  push_neg at hc
  have h1 : ¬ (x - (⌊x⌋:ℚ) < 1/2) := by linarith
  unfold pyRound at h
  rw [if_neg h1, if_pos hc] at h
  omega

theorem pyRound_cases (x : ℚ) : pyRound x = ⌊x⌋ ∨ pyRound x = ⌊x⌋ + 1 := by
  unfold pyRound
  split
  · exact Or.inl rfl
  · split
    · exact Or.inr rfl
    · split
      · exact Or.inl rfl
      · exact Or.inr rfl

theorem pyRound_mono {x y : ℚ} (h : x ≤ y) : pyRound x ≤ pyRound y := by
  rcases lt_or_eq_of_le (Int.floor_mono h) with hf | hf
  · calc pyRound x ≤ ⌊x⌋ + 1 := pyRound_le_floor_add_one x
      _ ≤ ⌊y⌋ := by omega
      _ ≤ pyRound y := pyRound_ge_floor y
  · -- same floor: compare fractional parts
    rcases pyRound_cases x with hx | hx <;> rcases pyRound_cases y with hy | hy
    · omega
    · omega
    · -- x rounds up, y rounds down: forces both fractional parts equal to 1/2
      have h1 : (1:ℚ)/2 ≤ x - ⌊x⌋ := pyRound_eq_floor_add_one_imp x hx
      have h2 : y - ⌊y⌋ ≤ (1:ℚ)/2 := pyRound_eq_floor_imp y hy
      have hfx : ((⌊x⌋ : ℚ)) = ((⌊y⌋ : ℚ)) := by exact_mod_cast hf
      have hxeq : x - ⌊x⌋ = 1/2 := by
        have : x - (⌊x⌋:ℚ) ≤ y - (⌊y⌋:ℚ) := by rw [← hfx]; linarith
        linarith
      have hyeq : y - ⌊y⌋ = 1/2 := by
        have : x - (⌊x⌋:ℚ) ≤ y - (⌊y⌋:ℚ) := by rw [← hfx]; linarith
        linarith
      -- with equal floors and both fractions 1/2, the parity branch decides both
      -- the same way, contradicting "x up, y down"
      have hlt : ¬ (x - (⌊x⌋:ℚ) < 1/2) := by rw [hxeq]; exact lt_irrefl _
      have hgt : ¬ ((1:ℚ)/2 < x - ⌊x⌋) := by rw [hxeq]; exact lt_irrefl _
      have hlt2 : ¬ (y - (⌊y⌋:ℚ) < 1/2) := by rw [hyeq]; exact lt_irrefl _
      have hgt2 : ¬ ((1:ℚ)/2 < y - ⌊y⌋) := by rw [hyeq]; exact lt_irrefl _
      unfold pyRound at hx hy
      rw [if_neg hlt, if_neg hgt] at hx
      rw [if_neg hlt2, if_neg hgt2] at hy
      rw [hf] at hx
      split at hx <;> split at hy <;> omega
    · omega

theorem pyRound_nonneg {x : ℚ} (h : 0 ≤ x) : 0 ≤ pyRound x := by
  have := pyRound_mono h
  rwa [show pyRound 0 = 0 from pyRound_intCast 0] at this

theorem pyRound_le_intCast {x : ℚ} {n : ℤ} (h : x ≤ (n : ℚ)) : pyRound x ≤ n := by
  have := pyRound_mono h
  rwa [pyRound_intCast n] at this

/-- Strict growth across a gap of more than one unit. -/
theorem pyRound_lt_of_gap {x y : ℚ} (h : x + 1 < y) : pyRound x < pyRound y := by
  have hfl : ⌊x⌋ + 1 ≤ ⌊y⌋ := by
    have : (⌊x⌋ : ℚ) + 1 ≤ y := by
      have := Int.floor_le x
      linarith
    exact_mod_cast Int.le_floor.mpr (by exact_mod_cast this)
  rcases lt_or_eq_of_le hfl with hlt | heq
  · calc pyRound x ≤ ⌊x⌋ + 1 := pyRound_le_floor_add_one x
      _ < ⌊y⌋ := hlt
      _ ≤ pyRound y := pyRound_ge_floor y
  · -- ⌊y⌋ = ⌊x⌋ + 1 and y - x > 1 force fract y > fract x
    have hfr : x - ⌊x⌋ < y - ⌊y⌋ := by
      have : ((⌊y⌋:ℚ)) = (⌊x⌋:ℚ) + 1 := by exact_mod_cast congrArg Int.cast heq.symm
      linarith
    rcases pyRound_cases x with hx | hx
    · have : pyRound y ≥ ⌊y⌋ := pyRound_ge_floor y
      omega
    · have h1 : (1:ℚ)/2 ≤ x - ⌊x⌋ := pyRound_eq_floor_add_one_imp x hx
      rcases pyRound_cases y with hy | hy
      · have h2 : y - ⌊y⌋ ≤ (1:ℚ)/2 := pyRound_eq_floor_imp y hy
        linarith
      · omega

/-- A rational that is an integer multiple of `1/100` (a "cent"). -/
def IsCent (x : ℚ) : Prop := ∃ m : ℤ, x = (m : ℚ) / 100

theorem round2_isCent (x : ℚ) : IsCent (round2 x) := by
  refine ⟨pyRound (100 * x), ?_⟩
  unfold round2 roundN
  norm_num

theorem IsCent.sub {x y : ℚ} (hx : IsCent x) (hy : IsCent y) : IsCent (x - y) := by
  obtain ⟨m, hm⟩ := hx
  obtain ⟨n, hn⟩ := hy
  exact ⟨m - n, by rw [hm, hn]; push_cast; ring⟩

theorem IsCent.add {x y : ℚ} (hx : IsCent x) (hy : IsCent y) : IsCent (x + y) := by
  obtain ⟨m, hm⟩ := hx
  obtain ⟨n, hn⟩ := hy
  exact ⟨m + n, by rw [hm, hn]; push_cast; ring⟩

theorem IsCent.two_mul {x : ℚ} (hx : IsCent x) : IsCent (2 * x) := by
  obtain ⟨m, hm⟩ := hx
  exact ⟨2 * m, by rw [hm]; push_cast; ring⟩

/-- `round(·, 2)` is the identity on exact cent amounts. -/
theorem round2_eq_self {x : ℚ} (h : IsCent x) : round2 x = x := by
  obtain ⟨m, hm⟩ := h
  subst hm
  unfold round2 roundN
  have : (10:ℚ)^2 * ((m:ℚ)/100) = (m:ℚ) := by field_simp; ring
  rw [this, pyRound_intCast]
  norm_num

/-! ### Series helpers (indicators.py and shared numpy/pandas idioms) -/

/-- Arithmetic mean (`np.mean` / `.mean()`); 0 on the empty list, every use
is guarded by a length check just as the source guards with NaN checks. -/
def meanQ (l : List ℚ) : ℚ := l.sum / l.length

/-- `l[-n:]` — the trailing `n` elements. -/
def lastN (n : ℕ) (l : List ℚ) : List ℚ := l.drop (l.length - n)

/-- `.iloc[-1]` (0 when empty; all uses guarded by length checks). -/
def lastQ (l : List ℚ) : ℚ := l.getLastD 0

/-- Final value of `series.ewm(..., adjust=False).mean()`: the recursion
`y0 = x0`, `y = a*x + (1-a)*y` folded over the whole series. -/
def ewmLast (a : ℚ) : List ℚ → ℚ
  | [] => 0
  | x :: xs => xs.foldl (fun acc v => a * v + (1 - a) * acc) x

/-- Final value of `ema(series, length)` (indicators.py: span factor `2/(length+1)`). -/
def emaLast (length : ℕ) (l : List ℚ) : ℚ := ewmLast (2 / ((length : ℚ) + 1)) l

/-- Final value of `sma(series, length)` / `rolling(length).mean()`. -/
def smaLast (length : ℕ) (l : List ℚ) : ℚ := meanQ (lastN length l)

/-- `np.max` (0 on empty; guarded at use sites). -/
def maxQ (l : List ℚ) : ℚ := match l with | [] => 0 | x :: xs => xs.foldl max x

/-- `np.min` (0 on empty; guarded at use sites). -/
def minQ (l : List ℚ) : ℚ := match l with | [] => 0 | x :: xs => xs.foldl min x

/-- Index of the first maximum (`np.argmax`). -/
def argmaxQ (l : List ℚ) : ℕ :=
  (l.foldl (fun (s : ℕ × ℚ × ℕ) v =>
    if v > s.2.1 then (s.2.2, v, s.2.2 + 1) else (s.1, s.2.1, s.2.2 + 1))
    (0, l.headD 0, 0)).1

/-- Index of the first minimum (`np.argmin`). -/
def argminQ (l : List ℚ) : ℕ :=
  (l.foldl (fun (s : ℕ × ℚ × ℕ) v =>
    if v < s.2.1 then (s.2.2, v, s.2.2 + 1) else (s.1, s.2.1, s.2.2 + 1))
    (0, l.headD 0, 0)).1

/-- Population variance (`np.std` squared): the source's degenerate-spread
check `std < 1e-8` is embedded as the equivalent `variance < 1e-16`. -/
def varQ (l : List ℚ) : ℚ := meanQ (l.map (fun x => (x - meanQ l) ^ 2))

/-- One daily OHLCV bar of the prepared frame (`_prep`): the embedded series
are NaN-free, so the source's `dropna`/`isnan` branches are inert. -/
structure Bar where
  high : ℚ
  low : ℚ
  close : ℚ
  volume : ℚ
deriving DecidableEq, Repr

/-- A dated bar, as engine1 needs the index for the weekly resample. -/
structure DayBar where
  date : ℤ
  high : ℚ
  low : ℚ
  close : ℚ
deriving DecidableEq, Repr

def dayToBar (d : DayBar) : Bar := ⟨d.high, d.low, d.close, 0⟩

/-- `true_range` rows after the first (the previous close is known). -/
def trAux (pc : ℚ) : List Bar → List ℚ
  | [] => []
  | b :: rest => max (b.high - b.low) (max |b.high - pc| |b.low - pc|) :: trAux b.close rest

/-- `true_range(high, low, close)`: the first row has no previous close, so
the pandas row-max skips the NaN columns and yields `high - low`. -/
def trList : List Bar → List ℚ
  | [] => []
  | b :: rest => (b.high - b.low) :: trAux b.close rest

/-- Final value of `atr(high, low, close, 14)`: Wilder smoothing `alpha = 1/14`. -/
def atrLast (bars : List Bar) : ℚ := ewmLast (1/14) (trList bars)

/-! ### Engine 1 — S/R zone extractor (`calculate_sr_zones`) -/

inductive ZoneKind | SUPPORT | RESISTANCE
deriving DecidableEq, Repr

structure SrZone where
  level : ℚ
  upper : ℚ
  lower : ℚ
  kind : ZoneKind
  atrv : ℚ
deriving DecidableEq, Repr

/-- Order on zones used by the final `zones.sort(key=level)`. -/
def zleQ (a b : SrZone) : Prop := a.level ≤ b.level

instance : DecidableRel zleQ := fun a b => inferInstanceAs (Decidable (a.level ≤ b.level))

instance : IsTotal SrZone zleQ := ⟨fun a b => le_total a.level b.level⟩

instance : IsTrans SrZone zleQ := ⟨fun _ _ _ h1 h2 => le_trans h1 h2⟩

/-- Week bucket of a date for the `resample("W")` grouping (weeks end Sunday;
day 0 is a Thursday, so days d with (d+3) in the same floor-div-7 class share
a week). Gap weeks are empty and dropped by the `dropna`, so grouping runs of
equal bucket ids over the date-ascending frame is the resample itself. -/
def weekId (d : ℤ) : ℤ := (d + 3).fdiv 7

def weeklyAux (w : ℤ) (cur : List DayBar) : List DayBar → List (List DayBar)
  | [] => [cur.reverse]
  | b :: rest =>
    if weekId b.date = w then weeklyAux w (b :: cur) rest
    else cur.reverse :: weeklyAux (weekId b.date) [b] rest

def weeklyGroups : List DayBar → List (List DayBar)
  | [] => []
  | b :: rest => weeklyAux (weekId b.date) [b] rest

structure WeekRow where
  close : ℚ
  high : ℚ
  low : ℚ
deriving DecidableEq, Repr

/-- `data.resample("W").agg({close: last, High: max, Low: min}).dropna()`. -/
def weeklyRows (bars : List DayBar) : List WeekRow :=
  (weeklyGroups bars).map (fun g =>
    ⟨lastQ (g.map (·.close)), maxQ (g.map (·.high)), minQ (g.map (·.low))⟩)

/-- `np.take(..., mode="clip")` shifted left by `s` (neighbour `i - s`). -/
def clipShiftNeg (s : ℕ) (l : List ℚ) : List ℚ :=
  match l with
  | [] => []
  | x :: _ => List.replicate s x ++ l.take (l.length - s)

/-- `np.take(..., mode="clip")` shifted right by `s` (neighbour `i + s`). -/
def clipShiftPos (s : ℕ) (l : List ℚ) : List ℚ :=
  l.drop s ++ List.replicate s (lastQ l)

/-- `scipy.signal.argrelextrema(l, cmp, order)` membership flags: position `i`
qualifies iff `cmp l[i] l[clip(i ± s)]` for every shift `1 ≤ s ≤ order`. -/
def relFlags (cmp : ℚ → ℚ → Bool) (order : ℕ) (l : List ℚ) : List Bool :=
  (List.range order).foldl
    (fun acc s =>
      let p := List.zipWith (fun a b => cmp a b) l (clipShiftPos (s+1) l)
      let m := List.zipWith (fun a b => cmp a b) l (clipShiftNeg (s+1) l)
      List.zipWith (fun a b => a && b) (List.zipWith (fun a b => a && b) acc p) m)
    (List.replicate l.length true)

/-- `vals[flags]` — numpy boolean-mask selection. -/
def selectFlagged (vals : List ℚ) (flags : List Bool) : List ℚ :=
  ((vals.zip flags).filter (fun p => p.2)).map (fun p => p.1)

/-- `np.percentile(l, 30)` with the default linear interpolation. -/
def percentile30 (l : List ℚ) : ℚ :=
  match l with
  | [] => 0
  | _ =>
    let s := List.insertionSort (· ≤ ·) l
    let h : ℚ := ((l.length : ℚ) - 1) * 30 / 100
    let i : ℕ := (⌊h⌋).toNat
    let fr : ℚ := h - (i : ℚ)
    s.getD i 0 + fr * (s.getD (i+1) (s.getD i 0) - s.getD i 0)

/-- `np.linspace(a, b, n)`. -/
def linspace (a b : ℚ) (n : ℕ) : List ℚ :=
  (List.range n).map (fun k => a + (b - a) * k / ((n : ℚ) - 1))

/-- The cluster-merge loop of `calculate_sr_zones` (lines 112-121): the running
cluster is held most-recent-first, so its head is Python's `cluster[-1]`; a
peak joins the cluster iff it is strictly less than one daily ATR above that
most recently appended peak. -/
def mergeAux (atr : ℚ) (cluster : List ℚ) : List ℚ → List ℚ
  | [] => [meanQ cluster]
  | p :: rest =>
    if p - cluster.headD 0 < atr then mergeAux atr (p :: cluster) rest
    else meanQ cluster :: mergeAux atr [p] rest

def mergePeaksCode (atr : ℚ) : List ℚ → List ℚ
  | [] => []
  | p :: rest => mergeAux atr [p] rest

/-- Modelled from the spec (claim C4 wording, for comparison with the code):
a peak is merged into the previous accepted cluster exactly when it lies
within `daily_ATR` of that cluster's running mean; clusters collapse to means. -/
def specMeanAux (atr : ℚ) (cluster : List ℚ) : List ℚ → List ℚ
  | [] => [meanQ cluster]
  | p :: rest =>
    if p - meanQ cluster ≤ atr then specMeanAux atr (p :: cluster) rest
    else meanQ cluster :: specMeanAux atr [p] rest

def mergePeaksSpecMean (atr : ℚ) : List ℚ → List ℚ
  | [] => []
  | p :: rest => specMeanAux atr [p] rest

/-- The cluster decomposition actually performed by the loop: a new peak joins
the open cluster exactly when it is strictly within one daily ATR of the
cluster's most recently added member. -/
def clustersAux (atr : ℚ) (cluster : List ℚ) : List ℚ → List (List ℚ)
  | [] => [cluster]
  | p :: rest =>
    if p - cluster.headD 0 < atr then clustersAux atr (p :: cluster) rest
    else cluster :: clustersAux atr [p] rest

def clustersByLast (atr : ℚ) : List ℚ → List (List ℚ)
  | [] => []
  | p :: rest => clustersAux atr [p] rest

/-- Daily 14-period ATR as engine1 computes it. -/
def srAtr (bars : List DayBar) : ℚ := atrLast (bars.map dayToBar)

/-- `calculate_sr_zones(ticker, df)`.  The scipy Gaussian KDE evaluated on the
600-point grid enters as the oracle `density` (the one quantity the repository
does not compute itself); everything else is translated from engine1.py.
Every guard that makes the Python return `[]` (insufficient data, non-positive
ATR, no density peaks) returns `[]` here; the surrounding `except` clause also
returns `[]`, so the embedding is total with the same value. -/
def calculateSrZones (bars : List DayBar) (density : List ℚ) : List SrZone :=
  if bars.length < 60 then [] else
  let atrD := srAtr bars
  if atrD ≤ 0 then [] else
  let zhw := (1/5) * atrD
  let weekly := weeklyRows bars
  if weekly.length < 10 then [] else
  let order := max 2 (weekly.length / 20)
  let hi := weekly.map (·.high)
  let lo := weekly.map (·.low)
  let cl := weekly.map (·.close)
  let phFlags := relFlags (fun a b => decide (a ≥ b)) order hi
  let plFlags := relFlags (fun a b => decide (a ≤ b)) order lo
  let pricePoints := (cl ++ selectFlagged hi phFlags ++ selectFlagged lo plFlags).filter
    (fun p => decide (p > 0))
  if pricePoints.length < 10 then [] else
  let pmin := minQ pricePoints * (49/50)
  let pmax := maxQ pricePoints * (51/50)
  let x := linspace pmin pmax 600
  let peakFlags := relFlags (fun a b => decide (a > b)) 8 density
  let cand := ((x.zip density).zip peakFlags).filter (fun pf => pf.2) |>.map (fun pf => pf.1)
  if cand.length = 0 then [] else
  let thr := percentile30 (cand.map (fun pd => pd.2))
  let peakPrices := (cand.filter (fun pd => decide (pd.2 ≥ thr))).map (fun pd => pd.1)
  let sorted := List.insertionSort (· ≤ ·) peakPrices
  let merged := mergePeaksCode atrD sorted
  let cur := lastQ (bars.map (·.close))
  let zones := merged.map (fun lvl =>
    { level := round2 lvl, upper := round2 (lvl + zhw), lower := round2 (lvl - zhw),
      kind := if lvl > cur then ZoneKind.RESISTANCE else ZoneKind.SUPPORT,
      atrv := round2 atrD : SrZone })
  List.insertionSort zleQ zones

/-! ### Rounding order lemmas for the zone bounds -/

theorem round2_mono {x y : ℚ} (h : x ≤ y) : round2 x ≤ round2 y := by
  unfold round2 roundN
  have h1 : (10:ℚ)^2 * x ≤ (10:ℚ)^2 * y := by nlinarith
  have h2 := pyRound_mono h1
  have h3 : ((pyRound ((10:ℚ)^2 * x) : ℚ)) ≤ ((pyRound ((10:ℚ)^2 * y) : ℚ)) := by
    exact_mod_cast h2
  exact (div_le_div_iff_of_pos_right (by norm_num)).mpr h3

theorem round2_strict {x y : ℚ} (h : x + 1/100 < y) : round2 x < round2 y := by
  unfold round2 roundN
  have h1 : (10:ℚ)^2 * x + 1 < (10:ℚ)^2 * y := by nlinarith
  have h2 := pyRound_lt_of_gap h1
  have h3 : ((pyRound ((10:ℚ)^2 * x) : ℚ)) < ((pyRound ((10:ℚ)^2 * y) : ℚ)) := by
    exact_mod_cast h2
  exact (div_lt_div_iff_of_pos_right (by norm_num)).mpr h3

/-! ### Claim C4 — the cluster-merge rule -/

theorem mergeAux_eq_clusters (atr : ℚ) :
    ∀ (rest cluster : List ℚ),
      mergeAux atr cluster rest = (clustersAux atr cluster rest).map meanQ := by
  intro rest
  induction rest with
  | nil => intro cluster; simp [mergeAux, clustersAux]
  | cons p r ih =>
    intro cluster
    simp only [mergeAux, clustersAux]
    split
    · exact ih _
    · simp [ih]

unseal Rat.add Rat.mul Rat.inv Rat.sub in
/-- C4 (counterexample): with daily ATR 1 and ascending surviving peaks
`[10, 10.9, 11.8]`, the code's merge loop (keyed to the cluster's last
member) produces the single cluster mean `[10.9]`, while merging by distance
to the cluster's running mean — as the claim states — would yield
`[10.45, 11.8]`; the claim's description of the merge rule is false of the code. -/
theorem c4_counterexample :
    mergePeaksCode 1 [10, 109/10, 118/10] = [109/10] ∧
    mergePeaksSpecMean 1 [10, 109/10, 118/10] = [209/20, 59/5] ∧
    mergePeaksCode 1 [10, 109/10, 118/10] ≠ mergePeaksSpecMean 1 [10, 109/10, 118/10] := by
  refine ⟨by decide, by decide, by decide⟩

/-- C4 (amended): after sorting the surviving peaks ascending, a peak is
merged into the previous accepted cluster exactly when it lies strictly
within one daily ATR above the cluster's most recently added member (not its
running mean), and each final cluster collapses to the arithmetic mean of
its member peak prices: the merge loop equals the mean-image of the cluster
decomposition `clustersByLast`. -/
theorem c4_theorem (atr : ℚ) (peaks : List ℚ) :
    mergePeaksCode atr peaks = (clustersByLast atr peaks).map meanQ := by
  cases peaks with
  | nil => rfl
  | cons p rest =>
    simp only [mergePeaksCode, clustersByLast]
    exact mergeAux_eq_clusters atr rest [p]

/-! ### Claim C5 — zone well-formedness -/

/-- Constant-price penny-spread input: 70 daily bars, close 10,
high 10.005, low 9.995, so the daily ATR is exactly 0.01. -/
def cexBars : List DayBar :=
  (List.range 70).map (fun i => ⟨(i : ℤ), 2001/200, 1999/200, 10⟩)

/-- Density oracle with a single spike at grid index 463. -/
def cexDensity : List ℚ :=
  (List.range 600).map (fun i => if i = 463 then 1 else 0)

set_option maxRecDepth 100000 in
unseal Rat.add Rat.mul Rat.inv Rat.sub in
/-- C5 (counterexample): with ATR 0.01 the half-width `0.2 × ATR = 0.002`
vanishes under the 2-decimal rounding, and the emitted zone has
`lower = level = upper = 10.11`, refuting `lower < level < upper`. -/
theorem c5_counterexample :
    calculateSrZones cexBars cexDensity =
      [{ level := 1011/100, upper := 1011/100, lower := 1011/100,
         kind := ZoneKind.RESISTANCE, atrv := 1/100 }] ∧
    ∃ z ∈ calculateSrZones cexBars cexDensity, ¬ z.lower < z.level := by
  refine ⟨by decide, ?_⟩
  refine ⟨{ level := 1011/100, upper := 1011/100, lower := 1011/100,
            kind := ZoneKind.RESISTANCE, atrv := 1/100 }, by decide, by decide⟩

/-- C5 (amended): for any input (bars and density oracle), every emitted
zone satisfies `lower ≤ level ≤ upper` — with both inequalities strict as
soon as the daily ATR exceeds 0.05, so that `0.2 × ATR` survives the
2-decimal rounding — and the returned list is sorted ascending by level;
every failure branch returns the empty list (the embedding is total). -/
theorem c5_theorem (bars : List DayBar) (density : List ℚ) :
    List.Sorted zleQ (calculateSrZones bars density) ∧
    (∀ z ∈ calculateSrZones bars density, z.lower ≤ z.level ∧ z.level ≤ z.upper) ∧
    (1/20 < srAtr bars →
      ∀ z ∈ calculateSrZones bars density, z.lower < z.level ∧ z.level < z.upper) := by
  simp only [calculateSrZones]
  split_ifs with h1 h2 h3 h4 h5
  · simp
  · simp
  · simp
  · simp
  · simp
  · push_neg at h2
    refine ⟨List.sorted_insertionSort zleQ _, ?_, ?_⟩
    · intro z hz
      rw [(List.perm_insertionSort zleQ _).mem_iff] at hz
      obtain ⟨lvl, _, rfl⟩ := List.mem_map.mp hz
      constructor
      · exact round2_mono (by nlinarith)
      · exact round2_mono (by nlinarith)
    · intro hatr z hz
      rw [(List.perm_insertionSort zleQ _).mem_iff] at hz
      obtain ⟨lvl, _, rfl⟩ := List.mem_map.mp hz
      constructor
      · exact round2_strict (by nlinarith)
      · exact round2_strict (by nlinarith)

/-- Wide-spread constant input: daily ATR is exactly 0.4 > 0.05. -/
def c5wBars : List DayBar :=
  (List.range 70).map (fun i => ⟨(i : ℤ), 51/5, 49/5, 10⟩)

/-- Density oracle with a single spike at grid index 300. -/
def c5wDensity : List ℚ :=
  (List.range 600).map (fun i => if i = 300 then 1 else 0)

set_option maxRecDepth 100000 in
unseal Rat.add Rat.mul Rat.inv Rat.sub in
/-- Witness for C5: at a concrete input with ATR 0.4 the strictness
hypothesis is discharged and the emitted zones are strictly ordered bands. -/
theorem c5_witness :
    (1:ℚ)/20 < srAtr c5wBars ∧
    (∀ z ∈ calculateSrZones c5wBars c5wDensity, z.lower < z.level ∧ z.level < z.upper) := by
  refine ⟨by decide, (c5_theorem c5wBars c5wDensity).2.2 (by decide)⟩

/-! ### Engine 4 — RS line (`calculate_rs_line`, `detect_rs_blue_dot`) -/

/-- The rows of the ticker frame whose date also occurs in the benchmark
frame (`Index.intersection` over the ascending daily indices, in ticker
order). -/
def rsCommon (ticker spy : List (ℤ × ℚ)) : List (ℤ × ℚ) :=
  ticker.filter (fun p => spy.any (fun q => q.1 == p.1))

/-- Per-aligned-day close ratio `ticker_close / spy_close`. -/
def rsRatios (ticker spy : List (ℤ × ℚ)) : List ℚ :=
  (rsCommon ticker spy).map
    (fun p => p.2 / (((spy.find? (fun q => q.1 == p.1)).map Prod.snd).getD 0))

/-- `calculate_rs_line(ticker_df, spy_df)`: series as (date, adjusted close)
rows; empty frames and fewer than 252 aligned days return `None`, otherwise
the most recent 252 ratios are returned. -/
def calcRsLine (ticker spy : List (ℤ × ℚ)) : Option (List ℚ) :=
  if ticker.isEmpty || spy.isEmpty then none
  else if (rsCommon ticker spy).length < 252 then none
  else some (lastN 252 (rsRatios ticker spy))

/-- `detect_rs_blue_dot(rs_line)`: blue dot iff the latest ratio is within
0.5% of the window maximum; short input returns `False`. -/
def detectRsBlueDot (l : List ℚ) : Bool :=
  if l.length < 252 then false
  else decide (lastQ l ≥ maxQ l * (199/200))

theorem rsCommon_nil_right (ticker : List (ℤ × ℚ)) : rsCommon ticker [] = [] := by
  simp [rsCommon]

/-- C8: the RS engine returns `None` exactly on fewer than 252 common dates,
otherwise exactly the most recent 252 per-day close ratios; the blue-dot
signal on a 252-value window is `latest ≥ 0.995 × max`, and is `false` for
any shorter input. -/
theorem c8 (ticker spy : List (ℤ × ℚ)) :
    ((rsCommon ticker spy).length < 252 → calcRsLine ticker spy = none) ∧
    (252 ≤ (rsCommon ticker spy).length →
      calcRsLine ticker spy = some (lastN 252 (rsRatios ticker spy)) ∧
      (lastN 252 (rsRatios ticker spy)).length = 252) ∧
    (∀ l : List ℚ, l.length < 252 → detectRsBlueDot l = false) ∧
    (∀ l : List ℚ, l.length = 252 →
      (detectRsBlueDot l = true ↔ lastQ l ≥ maxQ l * (199/200))) := by
  refine ⟨?_, ?_, ?_, ?_⟩
  · intro h
    unfold calcRsLine
    by_cases he : (ticker.isEmpty || spy.isEmpty) = true
    · rw [if_pos he]
    · rw [if_neg he, if_pos h]
  · intro h
    have hts : ¬ (ticker.isEmpty || spy.isEmpty) = true := by
      intro hc
      rcases Bool.or_eq_true_iff.mp hc with hc | hc
      · have : ticker = [] := List.isEmpty_iff.mp hc
        subst this
        simp [rsCommon] at h
      · have : spy = [] := List.isEmpty_iff.mp hc
        subst this
        rw [rsCommon_nil_right] at h
        simp at h
    constructor
    · unfold calcRsLine
      rw [if_neg hts, if_neg (by omega : ¬ (rsCommon ticker spy).length < 252)]
    · have hlen : (rsRatios ticker spy).length = (rsCommon ticker spy).length := by
        simp [rsRatios]
      unfold lastN
      rw [List.length_drop]
      omega
  · intro l hl
    unfold detectRsBlueDot
    rw [if_pos hl]
  · intro l hl
    unfold detectRsBlueDot
    rw [if_neg (by omega)]
    simp

/-- 252 aligned trading days, ticker closes 2, benchmark closes 1. -/
def c8wTicker : List (ℤ × ℚ) := (List.range 252).map (fun i => ((i : ℤ), 2))

def c8wSpy : List (ℤ × ℚ) := (List.range 252).map (fun i => ((i : ℤ), 1))

theorem c8w_common : rsCommon c8wTicker c8wSpy = c8wTicker := by
  unfold rsCommon c8wTicker c8wSpy
  rw [List.filter_eq_self]
  intro p hp
  obtain ⟨i, hi, rfl⟩ := List.mem_map.mp hp
  rw [List.any_eq_true]
  exact ⟨((i : ℤ), 1), List.mem_map.mpr ⟨i, hi, rfl⟩, by simp⟩

theorem lastQ_replicate (n : ℕ) (x : ℚ) : lastQ (List.replicate (n+1) x) = x := by
  unfold lastQ
  rw [List.replicate_succ']
  exact List.getLastD_concat _ _ _

theorem foldl_max_replicate (k : ℕ) (x : ℚ) :
    List.foldl max x (List.replicate k x) = x := by
  induction k with
  | zero => rfl
  | succ n ih =>
    rw [List.replicate_succ, List.foldl_cons, max_self]
    exact ih

theorem maxQ_replicate (n : ℕ) (x : ℚ) : maxQ (List.replicate (n+1) x) = x := by
  rw [List.replicate_succ]
  show List.foldl max x (List.replicate n x) = x
  exact foldl_max_replicate n x

set_option maxRecDepth 4000 in
/-- Witness for C8: on a concrete 252-day aligned pair the engine returns the
252 most recent ratios, and a concrete 252-value window at its high carries
the blue dot. -/
theorem c8_witness :
    calcRsLine c8wTicker c8wSpy = some (lastN 252 (rsRatios c8wTicker c8wSpy)) ∧
    detectRsBlueDot (List.replicate 252 (2:ℚ)) = true := by
  have hlen : 252 ≤ (rsCommon c8wTicker c8wSpy).length := by
    rw [c8w_common]
    unfold c8wTicker
    rw [List.length_map]
    decide
  refine ⟨((c8 c8wTicker c8wSpy).2.1 hlen).1, ?_⟩
  refine ((c8 c8wTicker c8wSpy).2.2.2 _ (List.length_replicate _ _)).mpr ?_
  rw [show (252:ℕ) = 251 + 1 from rfl, lastQ_replicate, maxQ_replicate]
  norm_num

/-! ### Engine 0 — regime filter (`check_market_regime`) -/

inductive RegimeLabel | BULLISH | BEARISH | ERRORLBL
deriving DecidableEq, Repr

structure RegimeResult where
  is_bullish : Bool
  spy_close : ℚ
  spy_20ema : ℚ
  regime : RegimeLabel
deriving DecidableEq, Repr

/-- `_error(msg)`: the fail-closed record; the message text is display-only
and dropped, its label is distinct from `BULLISH` and `BEARISH`. -/
def regimeError : RegimeResult := ⟨false, 0, 0, RegimeLabel.ERRORLBL⟩

/-- `check_market_regime()`.  The yfinance download is the single external
input: `none` models a raised fetch error (caught by the outer `except` and
turned into `_error`), `some closes` models the frame's adjusted-close column
after `dropna()`.  With at least 22 clean bars the `ema20` NaN guard cannot
fire (min_periods is 20), so it has no branch here. -/
def checkMarketRegime (fetch : Option (List ℚ)) : RegimeResult :=
  match fetch with
  | none => regimeError
  | some closes =>
    if closes.isEmpty then regimeError
    else if closes.length < 22 then regimeError
    else
      let e := emaLast 20 closes
      let lc := lastQ closes
      let bullish := decide (lc > e)
      ⟨bullish, round2 lc, round2 e,
        if bullish then RegimeLabel.BULLISH else RegimeLabel.BEARISH⟩

/-- C7: with a successful fetch of at least 22 usable bars, `is_bullish` holds
exactly when the latest close strictly exceeds the final 20-period EMA and the
label is BULLISH/BEARISH accordingly; a failed fetch or fewer than 22 bars
yields `is_bullish = false` with a label distinct from both (the embedding is
total: no branch raises). -/
theorem c7 (fetch : Option (List ℚ)) :
    (∀ closes, fetch = some closes → 22 ≤ closes.length →
      ((checkMarketRegime fetch).is_bullish = true ↔ emaLast 20 closes < lastQ closes) ∧
      (checkMarketRegime fetch).regime =
        (if emaLast 20 closes < lastQ closes then RegimeLabel.BULLISH
         else RegimeLabel.BEARISH)) ∧
    ((fetch = none ∨ ∃ closes, fetch = some closes ∧ closes.length < 22) →
      (checkMarketRegime fetch).is_bullish = false ∧
      (checkMarketRegime fetch).regime ≠ RegimeLabel.BULLISH ∧
      (checkMarketRegime fetch).regime ≠ RegimeLabel.BEARISH) := by
  constructor
  · intro closes hf hlen
    subst hf
    have hne : ¬ closes.isEmpty = true := by
      intro hc
      rw [List.isEmpty_iff.mp hc] at hlen
      simp at hlen
    simp only [checkMarketRegime]
    rw [if_neg hne, if_neg (by omega)]
    constructor
    · simp [gt_iff_lt]
    · by_cases hb : emaLast 20 closes < lastQ closes
      · simp [hb]
      · simp [hb]
  · intro h
    rcases h with h | ⟨closes, hf, hlen⟩
    · subst h
      exact ⟨rfl, by simp [checkMarketRegime, regimeError], by simp [checkMarketRegime, regimeError]⟩
    · subst hf
      simp only [checkMarketRegime]
      by_cases he : closes.isEmpty
      · rw [if_pos he]
        exact ⟨rfl, by simp [regimeError], by simp [regimeError]⟩
      · rw [if_neg he, if_pos hlen]
        exact ⟨rfl, by simp [regimeError], by simp [regimeError]⟩

/-- 21 flat closes then a pop: 22 bars, close 2 above its EMA-20. -/
def c7wCloses : List ℚ := List.replicate 21 1 ++ [2]

unseal Rat.add Rat.mul Rat.inv Rat.sub in
/-- Witness for C7: the bullish characterisation at a concrete 22-bar series,
and the fail-closed error shape at a failed fetch. -/
theorem c7_witness :
    ((checkMarketRegime (some c7wCloses)).is_bullish = true ↔
      emaLast 20 c7wCloses < lastQ c7wCloses) ∧
    ((checkMarketRegime none).is_bullish = false ∧
      (checkMarketRegime none).regime ≠ RegimeLabel.BULLISH ∧
      (checkMarketRegime none).regime ≠ RegimeLabel.BEARISH) := by
  exact ⟨((c7 (some c7wCloses)).1 c7wCloses rfl (by decide)).1, (c7 none).2 (Or.inl rfl)⟩

/-! ### Engine 5 — base patterns (`engine5.py`) -/

/-- The relative-strength factor of `_quality_score` (line 544):
`min(25, max(0, (rs_vs_spy / 0.05) * 25))`. -/
def rsFactorPts (rs_vs_spy : ℚ) : ℚ := min 25 (max 0 ((rs_vs_spy / (1/20)) * 25))

/-- Base-tightness factor of `_quality_score` (lines 547-554). -/
def tightPts (depth_pct max_depth_pct : ℚ) : ℚ :=
  if depth_pct ≤ 2/25 then 25
  else if depth_pct ≥ max_depth_pct then 0
  else (1 - (depth_pct - 2/25) / (max_depth_pct - 2/25)) * 25

/-- Volume dry-up factor of `_quality_score` (lines 557-563). -/
def volPts (vol_dry_pct : ℚ) : ℚ :=
  if vol_dry_pct ≤ 3/10 then 25
  else if vol_dry_pct ≥ 1 then 0
  else ((1 - vol_dry_pct) / (1 - 3/10)) * 25

/-- `_quality_score(...)`: `int(round(...))` of the four 25-point factors. -/
def qualityScore (depth_pct max_depth_pct vol_dry_pct rs_vs_spy : ℚ)
    (rs_blue_dot : Bool) : ℤ :=
  pyRound (rsFactorPts rs_vs_spy + tightPts depth_pct max_depth_pct +
    volPts vol_dry_pct + (if rs_blue_dot then 25 else 0))

/-- `rs_vs_spy` as both base-pattern scanners compute it before calling
`_quality_score` (engine5 lines 177 and 361):
`(rs_ratio - spy_3m_return) if spy_3m_return != 0 else 0.0`. -/
def rsVsSpyBase (rs_ratio spy_3m_return : ℚ) : ℚ :=
  if spy_3m_return ≠ 0 then rs_ratio - spy_3m_return else 0

theorem rsFactorPts_bounds (r : ℚ) : 0 ≤ rsFactorPts r ∧ rsFactorPts r ≤ 25 := by
  unfold rsFactorPts
  exact ⟨le_min (by norm_num) (le_max_left _ _), min_le_left _ _⟩

theorem tightPts_bounds (d md : ℚ) : 0 ≤ tightPts d md ∧ tightPts d md ≤ 25 := by
  unfold tightPts
  split_ifs with h1 h2
  · norm_num
  · norm_num
  · push_neg at h1 h2
    have hden : 0 < md - 2/25 := by linarith
    have hq0 : 0 ≤ (d - 2/25) / (md - 2/25) :=
      div_nonneg (by linarith) (le_of_lt hden)
    have hq1 : (d - 2/25) / (md - 2/25) < 1 := (div_lt_one hden).mpr (by linarith)
    constructor <;> nlinarith

theorem volPts_bounds (v : ℚ) : 0 ≤ volPts v ∧ volPts v ≤ 25 := by
  unfold volPts
  split_ifs with h1 h2
  · norm_num
  · norm_num
  · push_neg at h1 h2
    have hq0 : 0 ≤ (1 - v) / (1 - 3/10) := div_nonneg (by linarith) (by norm_num)
    have hq1 : (1 - v) / (1 - 3/10) < 1 := (div_lt_one (by norm_num)).mpr (by linarith)
    constructor <;> nlinarith

/-- C9: `_quality_score` is an integer in [0, 100] for all rational inputs
(in particular for the two callers' `max_depth_pct` values 0.35 and 0.12,
and at the boundary depths 0.08 and `max_depth_pct`). -/
theorem c9 (d md v r : ℚ) (b : Bool) :
    0 ≤ qualityScore d md v r b ∧ qualityScore d md v r b ≤ 100 := by
  obtain ⟨h1a, h1b⟩ := rsFactorPts_bounds r
  obtain ⟨h2a, h2b⟩ := tightPts_bounds d md
  obtain ⟨h3a, h3b⟩ := volPts_bounds v
  have hb0 : (0:ℚ) ≤ (if b then (25:ℚ) else 0) := by split <;> norm_num
  have hb1 : (if b then (25:ℚ) else 0) ≤ 25 := by split <;> norm_num
  unfold qualityScore
  constructor
  · exact pyRound_nonneg (by linarith)
  · exact pyRound_le_intCast (by push_cast; linarith)

/-- C6 (code bug): a stock whose 3-month return exactly equals the
benchmark's (outperformance 0%, which the claim and the engine's own header
comment score as 0 of 25 points) still receives the full 25 points, because
the scanners feed `rs_ratio - spy_3m_return` — the current RS price ratio
(here 0.8) minus a return — into the factor instead of the 3-month
outperformance; the outperformance-based input (as engine2 computes with
`stock_3m_return - spy_3m_return`) scores 0. -/
theorem c6_bug :
    rsVsSpyBase (4/5) (1/10) = 7/10 ∧
    rsFactorPts (rsVsSpyBase (4/5) (1/10)) = 25 ∧
    rsFactorPts ((1/10) - (1/10)) = 0 := by
  refine ⟨by norm_num [rsVsSpyBase], ?_, ?_⟩
  · rw [show rsVsSpyBase (4/5) (1/10) = 7/10 from by norm_num [rsVsSpyBase]]
    unfold rsFactorPts
    rw [show ((7:ℚ)/10 / (1/20)) * 25 = 350 by norm_num]
    rw [max_eq_right (by norm_num : (0:ℚ) ≤ 350)]
    exact min_eq_left (by norm_num)
  · unfold rsFactorPts
    norm_num

/-! ### Engine 5 — cup & handle and flat base scanners -/

inductive Signal | BRK | DRY
deriving DecidableEq, Repr

inductive BaseType | CUP_HANDLE | FLAT_BASE
deriving DecidableEq, Repr

/-- An emitted base setup (display-only fields — ticker, dates, geometry,
percent renderings — are omitted; all decision-relevant fields are kept). -/
structure BaseSetup where
  base_type : BaseType
  signal : Signal
  entry : ℚ
  stop_loss : ℚ
  take_profit : ℚ
  rr : ℚ
  quality_score : ℤ
deriving DecidableEq, Repr

/-- The Stage-2 trend gate shared verbatim by `scan_cup_handle` (lines 83-111)
and `scan_flat_base` (lines 251-277): above the 50/200 SMAs where defined
(`pd.notna` else 0.0 disables a check), at least 30% above the trailing
252-day low, and a rising 200 SMA where its 21-bars-ago value is defined. -/
def stage2Pass (closeL lowL : List ℚ) : Bool :=
  let n := closeL.length
  let lc := lastQ closeL
  let l200 := if 200 ≤ n then smaLast 200 closeL else 0
  let l50 := if 50 ≤ n then smaLast 50 closeL else 0
  if l200 > 0 ∧ lc < l200 then false
  else if l50 > 0 ∧ lc < l50 then false
  else
    let yrLow := if 252 ≤ lowL.length then minQ (lastN 252 lowL) else minQ lowL
    if yrLow > 0 ∧ lc < yrLow * (13/10) then false
    else
      let l200prev := if 220 ≤ n then meanQ ((closeL.drop (n - 220)).take 200) else 0
      if l200 > 0 ∧ 21 ≤ n ∧ l200prev > 0 ∧ l200 ≤ l200prev then false
      else true

structure Cup where
  left_peak_idx : ℕ
  left_peak : ℚ
  cup_bottom_idx : ℕ
  cup_bottom : ℚ
  right_rim_idx : ℕ
  right_rim : ℚ
  depth : ℚ
  cup_length : ℕ
deriving DecidableEq, Repr

/-- `_find_cup(close, lookback)`. -/
def findCup (close : List ℚ) (lookback : ℕ) : Option Cup :=
  let data := if lookback ≤ close.length then close.drop (close.length - lookback) else close
  if data.length < 30 then none else
  let twoThirds := data.length * 2 / 3
  let leftSearch := data.take twoThirds
  if leftSearch.length < 10 then none else
  let lpIdx := argmaxQ leftSearch
  let lp := leftSearch.getD lpIdx 0
  let afterPeak := data.drop lpIdx
  if afterPeak.length < 5 then none else
  let cbIdx := lpIdx + argminQ afterPeak
  let cb := data.getD cbIdx 0
  let depth := (lp - cb) / lp
  if depth < 3/25 ∨ depth > 7/20 then none else
  let afterBottom := data.drop cbIdx
  if afterBottom.length < 5 then none else
  let rrIdx := cbIdx + argmaxQ afterBottom
  let rr := data.getD rrIdx 0
  if (lp - rr) / lp > 1/10 then none else
  if rrIdx - lpIdx < 20 then none else
  some ⟨lpIdx, lp, cbIdx, cb, rrIdx, rr, depth, rrIdx - lpIdx⟩

/-- `_is_u_shaped(close, cup)`: the scipy parabola fit enters as the oracle
`fitA` (the fitted leading coefficient; `none` models a raised fit). -/
def isUShaped (close : List ℚ) (cup : Cup) (fitA : Option ℚ) : Bool :=
  let seg := (close.drop cup.left_peak_idx).take (cup.right_rim_idx + 1 - cup.left_peak_idx)
  if seg.length < 6 then false
  else
    match fitA with
    | none => false
    | some a => decide (a > 0)

structure Handle where
  handle_high : ℚ
  handle_low : ℚ
deriving DecidableEq, Repr

/-- `_find_handle(close, volume, cup, vol_sma50)`.  The two Python branches
for `handle_vols` (clipped slice vs tail) coincide with `drop/take`, which
clips by construction. -/
def findHandle (close volume : List ℚ) (cup : Cup) (volSma50 : ℚ) : Option Handle :=
  let rimIdx := cup.right_rim_idx
  let rr := cup.right_rim
  let cupMid := (cup.left_peak + cup.cup_bottom) / 2
  let afterRim := close.drop rimIdx
  if afterRim.length < 6 then none else
  let handleWindow := afterRim.take 26
  let handleVols := (volume.drop rimIdx).take 26
  let search := handleWindow.drop 1
  if search.length < 4 then none else
  let hl := search.getD (argminQ search) 0
  let pullback := (rr - hl) / rr
  if pullback < 3/100 ∨ pullback > 3/20 then none else
  if hl < cupMid then none else
  if volSma50 > 0 ∧ 4 ≤ handleVols.length then
    if meanQ ((handleVols.drop 1).take 3) ≥ volSma50 then none
    else some ⟨rr, hl⟩
  else some ⟨rr, hl⟩

/-- The decision state of `scan_cup_handle` after every gate up to and
including the handle search (lines 69-153): what remains is the signal rule,
the risk math and the dry-volume gate. -/
structure CupCtx where
  lc : ℚ
  lvol : ℚ
  vsm50 : ℚ
  latr : ℚ
  hh : ℚ
  hl : ℚ
  depth : ℚ
  volDry : ℚ
deriving DecidableEq, Repr

def cupContext (bars : List Bar) (fitA : Option ℚ) : Option CupCtx :=
  if bars.length < 60 then none else
  let closeL := bars.map (fun b => b.close)
  let lowL := bars.map (fun b => b.low)
  let volumeL := bars.map (fun b => b.volume)
  if closeL.length < 55 then none else
  if ¬ stage2Pass closeL lowL then none else
  let latr := atrLast bars
  if latr ≤ 0 then none else
  let vsm50 := smaLast 50 volumeL
  if vsm50 ≤ 0 then none else
  let lookback := min 120 closeL.length
  let closeLb := closeL.drop (closeL.length - lookback)
  let volumeLb := volumeL.drop (volumeL.length - lookback)
  match findCup closeLb lookback with
  | none => none
  | some cup =>
    if ¬ isUShaped closeLb cup fitA then none else
    match findHandle closeLb volumeLb cup vsm50 with
    | none => none
    | some handle =>
      some ⟨lastQ closeL, lastQ volumeL, vsm50, latr, handle.handle_high,
            handle.handle_low, cup.depth, meanQ (lastN 5 volumeL) / vsm50⟩

/-- `scan_cup_handle(ticker, df, spy_3m_return, rs_ratio, rs_52w_high,
rs_blue_dot)` (the unused `rs_52w_high` display field is dropped). -/
def scanCupHandle (bars : List Bar) (spy3m rsRatio : ℚ) (blueDot : Bool)
    (fitA : Option ℚ) : Option BaseSetup :=
  match cupContext bars fitA with
  | none => none
  | some c =>
    let distToPivot := if c.hh > 0 then (c.hh - c.lc) / c.hh else 1
    let volRatio := if c.vsm50 > 0 then c.lvol / c.vsm50 else 0
    let sig : Option Signal :=
      if c.lc > c.hh ∧ volRatio ≥ 6/5 then some Signal.BRK
      else if distToPivot ≤ 1/100 then some Signal.DRY
      else none
    match sig with
    | none => none
    | some signal =>
      let entry := round2 (c.hh * (1001/1000))
      let stop := round2 (c.hl - (1/5) * c.latr)
      let risk := entry - stop
      if risk ≤ 0 ∨ risk > entry * (3/20) then none else
      let tp := round2 (entry + 2 * risk)
      if c.volDry > 17/20 then none else
      some ⟨BaseType.CUP_HANDLE, signal, entry, stop, tp, 2,
            qualityScore c.depth (7/20) c.volDry (rsVsSpyBase rsRatio spy3m) blueDot⟩

/-- First `lb` in `range(max_lookback, 24, -1)` whose trailing window keeps
high-to-low depth at most 12% (`scan_flat_base` lines 282-291); 0 when none. -/
def flatLookback (highL lowL : List ℚ) : ℕ :=
  let maxLb := min 60 highL.length
  ((List.range' 25 (maxLb - 24)).reverse.find? (fun lb =>
      let wh := maxQ (lastN lb highL)
      decide (wh > 0 ∧ (wh - minQ (lastN lb lowL)) / wh ≤ 3/25))).getD 0

/-- The decision state of `scan_flat_base` after every gate up to the signal
rule (lines 236-335). -/
structure FlatCtx where
  lc : ℚ
  lvol : ℚ
  vsm50 : ℚ
  latr : ℚ
  baseHigh : ℚ
  baseHighPrice : ℚ
  baseLowPrice : ℚ
  depth : ℚ
  volRatio1050 : ℚ
  lookback : ℕ
deriving DecidableEq, Repr

/-- The quantities `scan_flat_base` computes over the trailing window
(lines 282-343), bundled; the guards are applied by `flatGuards`. -/
def flatQuantities (bars : List Bar) : FlatCtx :=
  let closeL := bars.map (fun b => b.close)
  let highL := bars.map (fun b => b.high)
  let lowL := bars.map (fun b => b.low)
  let volumeL := bars.map (fun b => b.volume)
  let lb := flatLookback highL lowL
  let bhp := maxQ (lastN lb highL)
  let blp := minQ (lastN lb lowL)
  { lc := lastQ closeL, lvol := lastQ volumeL,
    vsm50 := smaLast 50 volumeL, latr := atrLast bars,
    baseHigh := maxQ (lastN lb closeL), baseHighPrice := bhp, baseLowPrice := blp,
    depth := (bhp - blp) / bhp,
    volRatio1050 := smaLast 10 volumeL / smaLast 50 volumeL, lookback := lb }

/-- The gate chain of `scan_flat_base` between the lookback scan and the
signal rule (lines 292-336), in source order. -/
def flatGuards (c : FlatCtx) : Option FlatCtx :=
  if c.lookback < 25 then none else
  if c.baseHighPrice ≤ 0 then none else
  if c.depth > 3/25 then none else
  if c.baseHighPrice - c.baseLowPrice > 0 ∧
      (c.lc - c.baseLowPrice) / (c.baseHighPrice - c.baseLowPrice) < 3/4 then none else
  if c.vsm50 ≤ 0 then none else
  if c.volRatio1050 > 3/4 then none else
  if c.latr ≤ 0 then none else
  some c

def flatContext (bars : List Bar) : Option FlatCtx :=
  if bars.length < 60 then none else
  if (bars.map (fun b => b.close)).length < 55 then none else
  if ¬ stage2Pass (bars.map (fun b => b.close)) (bars.map (fun b => b.low)) then none else
  flatGuards (flatQuantities bars)

/-- `scan_flat_base(...)`. -/
def scanFlatBase (bars : List Bar) (spy3m rsRatio : ℚ) (blueDot : Bool) :
    Option BaseSetup :=
  match flatContext bars with
  | none => none
  | some c =>
    let volRatio := if c.vsm50 > 0 then c.lvol / c.vsm50 else 0
    let dist := if c.baseHigh > 0 then (c.baseHigh - c.lc) / c.baseHigh else 1
    let sig : Option Signal :=
      if c.lc > c.baseHigh ∧ volRatio ≥ 6/5 then some Signal.BRK
      else if dist ≤ 1/100 then some Signal.DRY
      else none
    match sig with
    | none => none
    | some signal =>
      let entry := round2 (c.baseHigh * (1001/1000))
      let stop := round2 (c.baseLowPrice - (1/5) * c.latr)
      let risk := entry - stop
      if risk ≤ 0 ∨ risk > entry * (3/20) then none else
      let tp := round2 (entry + 2 * risk)
      some ⟨BaseType.FLAT_BASE, signal, entry, stop, tp, 2,
            qualityScore c.depth (3/25) c.volRatio1050 (rsVsSpyBase rsRatio spy3m) blueDot⟩

theorem cupContext_vsm50_pos {bars : List Bar} {fitA : Option ℚ} {c : CupCtx}
    (h : cupContext bars fitA = some c) : 0 < c.vsm50 := by
  simp only [cupContext] at h
  split at h
  · exact Option.noConfusion h
  split at h
  · exact Option.noConfusion h
  split at h
  · exact Option.noConfusion h
  split at h
  · exact Option.noConfusion h
  split at h
  · exact Option.noConfusion h
  split at h
  · exact Option.noConfusion h
  split at h
  · exact Option.noConfusion h
  split at h
  · exact Option.noConfusion h
  injection h with h
  subst h
  exact not_le.mp (by assumption)

theorem flatGuards_some {x c : FlatCtx} (h : flatGuards x = some c) :
    c = x ∧ 0 < c.vsm50 := by
  unfold flatGuards at h
  split_ifs at h with h1 h2 h3 h4 h5 h6 h7
  injection h with h
  subst h
  exact ⟨rfl, not_le.mp h5⟩

theorem flatContext_vsm50_pos {bars : List Bar} {c : FlatCtx}
    (h : flatContext bars = some c) : 0 < c.vsm50 := by
  unfold flatContext at h
  split_ifs at h
  exact (flatGuards_some h).2

/-- C3: in the cup-and-handle detector, an emitted signal is BRK exactly when
the latest close strictly exceeds the handle high with today's volume at
least 1.2 times the 50-day average; otherwise it is DRY exactly when the
close is at least 99% of the handle high (`(hh - close)/hh ≤ 1%`); when
neither holds nothing is emitted.  The same rule holds for the flat-base
detector with the base high in place of the handle high. -/
theorem c3 :
    (∀ (bars : List Bar) (fitA : Option ℚ) (sp rr : ℚ) (bd : Bool) (c : CupCtx),
      cupContext bars fitA = some c → 0 < c.hh →
      ((∀ r, scanCupHandle bars sp rr bd fitA = some r →
        ((r.signal = Signal.BRK) ↔ (c.hh < c.lc ∧ (6/5) * c.vsm50 ≤ c.lvol)) ∧
        ((r.signal = Signal.DRY) ↔
          (¬ (c.hh < c.lc ∧ (6/5) * c.vsm50 ≤ c.lvol) ∧ (99/100) * c.hh ≤ c.lc))) ∧
       (¬ (c.hh < c.lc ∧ (6/5) * c.vsm50 ≤ c.lvol) → ¬ ((99/100) * c.hh ≤ c.lc) →
         scanCupHandle bars sp rr bd fitA = none))) ∧
    (∀ (bars : List Bar) (sp rr : ℚ) (bd : Bool) (c : FlatCtx),
      flatContext bars = some c → 0 < c.baseHigh →
      ((∀ r, scanFlatBase bars sp rr bd = some r →
        ((r.signal = Signal.BRK) ↔ (c.baseHigh < c.lc ∧ (6/5) * c.vsm50 ≤ c.lvol)) ∧
        ((r.signal = Signal.DRY) ↔
          (¬ (c.baseHigh < c.lc ∧ (6/5) * c.vsm50 ≤ c.lvol) ∧
            (99/100) * c.baseHigh ≤ c.lc))) ∧
       (¬ (c.baseHigh < c.lc ∧ (6/5) * c.vsm50 ≤ c.lvol) →
         ¬ ((99/100) * c.baseHigh ≤ c.lc) →
         scanFlatBase bars sp rr bd = none))) := by
  constructor
  · intro bars fitA sp rr bd c hctx hpos
    have hv : 0 < c.vsm50 := cupContext_vsm50_pos hctx
    have hbrkEq : (c.lc > c.hh ∧ (if c.vsm50 > 0 then c.lvol / c.vsm50 else 0) ≥ 6/5)
        ↔ (c.hh < c.lc ∧ (6/5) * c.vsm50 ≤ c.lvol) := by
      rw [if_pos hv]
      constructor
      · rintro ⟨h1, h2⟩
        exact ⟨h1, (le_div_iff₀ hv).mp h2⟩
      · rintro ⟨h1, h2⟩
        exact ⟨h1, (le_div_iff₀ hv).mpr h2⟩
    have hdryEq : ((if c.hh > 0 then (c.hh - c.lc) / c.hh else 1) ≤ 1/100)
        ↔ (99/100) * c.hh ≤ c.lc := by
      rw [if_pos hpos, div_le_iff₀ hpos]
      constructor <;> intro h <;> linarith
    constructor
    · intro r hr
      unfold scanCupHandle at hr
      rw [hctx] at hr
      dsimp only at hr
      by_cases hb : (c.lc > c.hh ∧ (if c.vsm50 > 0 then c.lvol / c.vsm50 else 0) ≥ 6/5)
      · rw [if_pos hb] at hr
        split_ifs at hr
        injection hr with hr
        subst hr
        refine ⟨iff_of_true rfl (hbrkEq.mp hb), iff_of_false (by simp) ?_⟩
        rintro ⟨hn, _⟩
        exact hn (hbrkEq.mp hb)
      · rw [if_neg hb] at hr
        by_cases hd : ((if c.hh > 0 then (c.hh - c.lc) / c.hh else 1) ≤ 1/100)
        · rw [if_pos hd] at hr
          split_ifs at hr
          injection hr with hr
          subst hr
          refine ⟨iff_of_false (by simp) (fun hcc => hb (hbrkEq.mpr hcc)), ?_⟩
          exact iff_of_true rfl ⟨fun hcc => hb (hbrkEq.mpr hcc), hdryEq.mp hd⟩
        · rw [if_neg hd] at hr
          exact Option.noConfusion hr
    · intro hnb hnd
      unfold scanCupHandle
      rw [hctx]
      dsimp only
      rw [if_neg (fun hcc => hnb (hbrkEq.mp hcc)),
        if_neg (fun hdd => hnd (hdryEq.mp hdd))]
  · intro bars sp rr bd c hctx hpos
    have hv : 0 < c.vsm50 := flatContext_vsm50_pos hctx
    have hbrkEq : (c.lc > c.baseHigh ∧ (if c.vsm50 > 0 then c.lvol / c.vsm50 else 0) ≥ 6/5)
        ↔ (c.baseHigh < c.lc ∧ (6/5) * c.vsm50 ≤ c.lvol) := by
      rw [if_pos hv]
      constructor
      · rintro ⟨h1, h2⟩
        exact ⟨h1, (le_div_iff₀ hv).mp h2⟩
      · rintro ⟨h1, h2⟩
        exact ⟨h1, (le_div_iff₀ hv).mpr h2⟩
    have hdryEq : ((if c.baseHigh > 0 then (c.baseHigh - c.lc) / c.baseHigh else 1) ≤ 1/100)
        ↔ (99/100) * c.baseHigh ≤ c.lc := by
      rw [if_pos hpos, div_le_iff₀ hpos]
      constructor <;> intro h <;> linarith
    constructor
    · intro r hr
      unfold scanFlatBase at hr
      rw [hctx] at hr
      dsimp only at hr
      by_cases hb : (c.lc > c.baseHigh ∧ (if c.vsm50 > 0 then c.lvol / c.vsm50 else 0) ≥ 6/5)
      · rw [if_pos hb] at hr
        split_ifs at hr
        injection hr with hr
        subst hr
        refine ⟨iff_of_true rfl (hbrkEq.mp hb), iff_of_false (by simp) ?_⟩
        rintro ⟨hn, _⟩
        exact hn (hbrkEq.mp hb)
      · rw [if_neg hb] at hr
        by_cases hd : ((if c.baseHigh > 0 then (c.baseHigh - c.lc) / c.baseHigh else 1) ≤ 1/100)
        · rw [if_pos hd] at hr
          split_ifs at hr
          injection hr with hr
          subst hr
          refine ⟨iff_of_false (by simp) (fun hcc => hb (hbrkEq.mpr hcc)), ?_⟩
          exact iff_of_true rfl ⟨fun hcc => hb (hbrkEq.mpr hcc), hdryEq.mp hd⟩
        · rw [if_neg hd] at hr
          exact Option.noConfusion hr
    · intro hnb hnd
      unfold scanFlatBase
      rw [hctx]
      dsimp only
      rw [if_neg (fun hcc => hnb (hbrkEq.mp hcc)),
        if_neg (fun hdd => hnd (hdryEq.mp hdd))]

def mkBars (off : ℚ) (cs vs : List ℚ) : List Bar :=
  List.zipWith (fun c v => ⟨c + off, c - off, c, v⟩) cs vs

/-- A 60-bar synthetic cup-and-handle: advance to 100, 20%-deep cup to 80,
rim 97, handle low 92, last close 96.5 (within 1% of the rim). -/
def cupCloses : List ℚ :=
  [70, 72, 74, 76, 78, 82, 86, 90, 95, 100,
   98, 97, 95, 93, 91, 89, 87, 85, 84, 83, 82, 81, 161/2, 401/5, 80,
   161/2, 81, 82, 83, 84, 86, 88, 90, 91, 92, 93, 94, 95, 96, 97,
   96, 95, 94, 187/2, 93, 185/2, 461/5, 92, 923/10, 464/5, 187/2,
   94, 189/2, 95, 191/2, 96, 481/5, 963/10, 482/5, 193/2]

def cupBars : List Bar :=
  mkBars 1 cupCloses (List.replicate 40 1000 ++ List.replicate 20 600)

/-- A 60-bar synthetic flat base: 25-bar ramp to 86 then a 35-bar shelf in
[99, 100] with dry volume, last close 100 at the base high. -/
def flatCloses : List ℚ :=
  (List.range 25).map (fun i => ((62 + i : ℕ) : ℚ)) ++
  (List.range 34).map (fun i => if i = 15 then 100 else if i % 2 = 0 then 99 else 199/2) ++
  [100]

def flatBars : List Bar :=
  mkBars (1/5) flatCloses (List.replicate 25 1400 ++ List.replicate 35 600)

set_option maxRecDepth 100000 in
unseal Rat.add Rat.mul Rat.inv Rat.sub in
/-- Witness for C3: both detectors reach the signal stage on concrete series
(with a positive pivot), and the characterisation applies there. -/
theorem c3_witness :
    (∃ c : CupCtx, cupContext cupBars (some 1) = some c ∧ 0 < c.hh ∧
      ∀ r, scanCupHandle cupBars 0 0 false (some 1) = some r →
        ((r.signal = Signal.BRK) ↔ (c.hh < c.lc ∧ (6/5) * c.vsm50 ≤ c.lvol)) ∧
        ((r.signal = Signal.DRY) ↔
          (¬ (c.hh < c.lc ∧ (6/5) * c.vsm50 ≤ c.lvol) ∧ (99/100) * c.hh ≤ c.lc))) ∧
    (∃ c : FlatCtx, flatContext flatBars = some c ∧ 0 < c.baseHigh ∧
      ∀ r, scanFlatBase flatBars 0 0 false = some r →
        ((r.signal = Signal.BRK) ↔ (c.baseHigh < c.lc ∧ (6/5) * c.vsm50 ≤ c.lvol)) ∧
        ((r.signal = Signal.DRY) ↔
          (¬ (c.baseHigh < c.lc ∧ (6/5) * c.vsm50 ≤ c.lvol) ∧
            (99/100) * c.baseHigh ≤ c.lc))) := by
  constructor
  · have hs : (cupContext cupBars (some 1)).isSome = true := by decide
    obtain ⟨c, hc⟩ := Option.isSome_iff_exists.mp hs
    have hpos : 0 < c.hh := by
      have h2 : 0 < ((cupContext cupBars (some 1)).getD
          ⟨0, 0, 0, 0, 0, 0, 0, 0⟩).hh := by decide
      rwa [hc, Option.getD_some] at h2
    exact ⟨c, hc, hpos, fun r hr => (((c3.1) cupBars (some 1) 0 0 false c hc hpos).1 r hr)⟩
  · have hs : (flatContext flatBars).isSome = true := by decide
    obtain ⟨c, hc⟩ := Option.isSome_iff_exists.mp hs
    have hpos : 0 < c.baseHigh := by
      have h2 : 0 < ((flatContext flatBars).getD
          ⟨0, 0, 0, 0, 0, 0, 0, 0, 0, 0⟩).baseHigh := by decide
      rwa [hc, Option.getD_some] at h2
    exact ⟨c, hc, hpos, fun r hr => (((c3.2) flatBars 0 0 false c hc hpos).1 r hr)⟩

/-! ### Engine 2 — breakout scanner (`engine2.py`) -/

/-- The touch predicate of `detect_trendline` (lines 105-111): a bar touches
the line when the extrapolated value is positive and the relative gap is at
most 0.8%. -/
def touchPred (p1 slope : ℚ) (hd : ℚ × ℤ) : Bool :=
  decide (p1 + slope * (hd.2 : ℚ) > 0 ∧
    |hd.1 - (p1 + slope * (hd.2 : ℚ))| / (p1 + slope * (hd.2 : ℚ)) ≤ 1/125)

/-- The touch counter of `detect_trendline`: bars are the daily highs paired
with their day offset from the first peak. -/
def touchCount (highs : List ℚ) (days : List ℤ) (p1 slope : ℚ) : ℕ :=
  ((highs.zip days).filter (touchPred p1 slope)).length

theorem one_le_length_filter {α : Type} (p : α → Bool) (l : List α) (k : ℕ)
    (hk : k < l.length) (hp : p (l.get ⟨k, hk⟩) = true) :
    1 ≤ (l.filter p).length := by
  have hm : l.get ⟨k, hk⟩ ∈ l.filter p :=
    List.mem_filter.mpr ⟨l.get_mem _ _, hp⟩
  exact List.length_pos_of_mem hm

theorem two_le_length_filter {α : Type} (p : α → Bool) :
    ∀ (l : List α) (i j : ℕ) (hi : i < l.length) (hj : j < l.length), i < j →
      p (l.get ⟨i, hi⟩) = true → p (l.get ⟨j, hj⟩) = true →
      2 ≤ (l.filter p).length := by
  intro l
  induction l with
  | nil => intro i j hi _ _ _ _; exact absurd hi (by simp)
  | cons a t ih =>
    intro i j hi hj hij hpi hpj
    cases i with
    | zero =>
      have hpa : p a = true := hpi
      cases j with
      | zero => omega
      | succ j' =>
        have hj' : j' < t.length := by simpa using hj
        have hpj' : p (t.get ⟨j', hj'⟩) = true := hpj
        rw [List.filter_cons_of_pos hpa, List.length_cons]
        have := one_le_length_filter p t j' hj' hpj'
        omega
    | succ i' =>
      cases j with
      | zero => omega
      | succ j' =>
        have hi' : i' < t.length := by simpa using hi
        have hj' : j' < t.length := by simpa using hj
        have h2 := ih i' j' hi' hj' (by omega) hpi hpj
        by_cases hpa : p a = true
        · rw [List.filter_cons_of_pos hpa, List.length_cons]
          omega
        · rw [List.filter_cons_of_neg (by simpa using hpa)]
          exact h2

/-- C10: once `detect_trendline` has selected two prominent peaks with
positive prices and computed the (negative-slope) line through them, both
defining peaks lie exactly on the line, hence within the 0.8% touch band, so
the touch count is at least 2 and the `touches < 2` rejection never fires.
(`slope = (p2 - p1)/d` is the code's slope; index `i` is peak 1 with day
offset 0, index `j` is peak 2 with day offset `d > 0`.) -/
theorem c10 (highs : List ℚ) (days : List ℤ) (p1 p2 : ℚ) (d : ℤ) (i j : ℕ)
    (hij : i ≠ j)
    (hi : i < (highs.zip days).length) (hj : j < (highs.zip days).length)
    (hgi : (highs.zip days).get ⟨i, hi⟩ = (p1, 0))
    (hgj : (highs.zip days).get ⟨j, hj⟩ = (p2, d))
    (hp1 : 0 < p1) (hp2 : 0 < p2) (hd : 0 < d) :
    2 ≤ touchCount highs days p1 ((p2 - p1) / (d : ℚ)) := by
  have hdq : ((d : ℚ)) ≠ 0 := by
    have : (0:ℚ) < (d : ℚ) := by exact_mod_cast hd
    linarith
  have hpi : touchPred p1 ((p2 - p1) / (d : ℚ)) ((highs.zip days).get ⟨i, hi⟩) = true := by
    rw [hgi]
    unfold touchPred
    rw [decide_eq_true_eq]
    have hzero : p1 + (p2 - p1) / (d : ℚ) * (((0:ℤ)) : ℚ) = p1 := by push_cast; ring
    rw [hzero]
    refine ⟨hp1, ?_⟩
    rw [sub_self, abs_zero, zero_div]
    norm_num
  have hpj : touchPred p1 ((p2 - p1) / (d : ℚ)) ((highs.zip days).get ⟨j, hj⟩) = true := by
    rw [hgj]
    unfold touchPred
    rw [decide_eq_true_eq]
    have hline : p1 + (p2 - p1) / (d : ℚ) * ((d:ℤ) : ℚ) = p2 := by
      field_simp
    rw [hline]
    refine ⟨hp2, ?_⟩
    rw [sub_self, abs_zero, zero_div]
    norm_num
  unfold touchCount
  rcases Nat.lt_or_ge i j with h | h
  · exact two_le_length_filter _ _ i j hi hj h hpi hpj
  · have hji : j < i := by omega
    exact two_le_length_filter _ _ j i hj hi hji hpj hpi

/-- An emitted breakout setup (ticker/date display fields omitted). -/
structure VcpSetup where
  entry : ℚ
  stop_loss : ℚ
  take_profit : ℚ
  rr : ℚ
  is_breakout : Bool
  is_vol_surge : Bool
  volume_ratio : ℚ
  resistance_level : Option ℚ
  breakout_pct : Option ℚ
  rs_vs_spy : ℚ
  tr_contraction_pct : Option ℚ
  is_trendline_breakout : Bool
  is_kde_breakout : Bool
  is_rs_lead : Bool
  rs_ratio_today : ℚ
  rs_52w_high : ℚ
  rs_blue_dot : Bool
  trendline : Option ℚ
deriving DecidableEq, Repr

/-- The scalar context `scan_vcp` computes before its five paths
(lines 263-309): last prices, EMA/SMA values, ATR, volume statistics and the
63-day relative strength versus the benchmark. -/
structure VcpCtx where
  lc : ℚ
  lh : ℚ
  ll : ℚ
  l8 : ℚ
  l20 : ℚ
  l50 : ℚ
  latr : ℚ
  lvol : ℚ
  avgVol : ℚ
  volumeRatio : ℚ
  rsVsSpy : ℚ
  resZones : List SrZone
deriving DecidableEq, Repr

def vcpQuantities (bars : List Bar) (zones : List SrZone) (spy3m : ℚ) : VcpCtx :=
  let closeL := bars.map (fun b => b.close)
  let volumeL := bars.map (fun b => b.volume)
  let avgVol := smaLast 50 volumeL
  let lvol := lastQ volumeL
  let lb63 := min 63 (closeL.length - 1)
  let stock3m :=
    if 10 < lb63 then lastQ closeL / closeL.getD (closeL.length - lb63) 0 - 1 else 0
  { lc := lastQ closeL, lh := lastQ (bars.map (fun b => b.high)),
    ll := lastQ (bars.map (fun b => b.low)),
    l8 := emaLast 8 closeL, l20 := emaLast 20 closeL, l50 := smaLast 50 closeL,
    latr := atrLast bars, lvol := lvol, avgVol := avgVol,
    volumeRatio := round2 (lvol / avgVol),
    rsVsSpy := round4 (stock3m - spy3m),
    resZones := zones.filter (fun z => decide (z.kind = ZoneKind.RESISTANCE)) }

/-- `max(broken, key=level)` over the broken resistance zones (Python's max
keeps the first maximal element). -/
def brokenMax (c : VcpCtx) : Option SrZone :=
  match c.resZones.filter (fun z => decide (c.lc > z.upper)) with
  | [] => none
  | z0 :: zs => some (zs.foldl (fun best z => if z.level > best.level then z else best) z0)

/-- PATH B — confirmed breakout (lines 311-363). -/
def pathB (c : VcpCtx) (rsRatio rs52w : ℚ) (blueDot : Bool) : Option VcpSetup :=
  if ¬ (c.resZones ≠ [] ∧ c.lvol ≥ (3/2) * c.avgVol ∧ c.rsVsSpy > 0) then none else
  match brokenMax c with
  | none => none
  | some z =>
    if ¬ ((1/200) ≤ (c.lc - z.upper) / z.upper ∧ (c.lc - z.upper) / z.upper ≤ 3/100)
    then none else
    if round2 (c.lh * (1001/1000)) - round2 (min c.ll z.lower - (1/5) * c.latr) ≤ 0 ∨
        round2 (c.lh * (1001/1000)) - round2 (min c.ll z.lower - (1/5) * c.latr) >
          round2 (c.lh * (1001/1000)) * (3/20) then none else
    some
    { entry := round2 (c.lh * (1001/1000)),
      stop_loss := round2 (min c.ll z.lower - (1/5) * c.latr),
      take_profit := round2 (round2 (c.lh * (1001/1000)) +
        2 * (round2 (c.lh * (1001/1000)) - round2 (min c.ll z.lower - (1/5) * c.latr))),
      rr := 2, is_breakout := true, is_vol_surge := true,
      volume_ratio := c.volumeRatio, resistance_level := some z.level,
      breakout_pct := some (round2 ((c.lc - z.upper) / z.upper * 100)),
      rs_vs_spy := c.rsVsSpy, tr_contraction_pct := none,
      is_trendline_breakout := false, is_kde_breakout := false, is_rs_lead := false,
      rs_ratio_today := rsRatio, rs_52w_high := rs52w, rs_blue_dot := blueDot,
      trendline := none }

/-- PATH C — trendline breakout (lines 365-407); `tl` is the last value of
the detected descending trendline (`None` when `detect_trendline` found
nothing), the scipy-`find_peaks`-derived boundary of this path. -/
def pathC (c : VcpCtx) (rsRatio rs52w : ℚ) (blueDot : Bool) (tl : Option ℚ) :
    Option VcpSetup :=
  match tl with
  | none => none
  | some t =>
    if ¬ (c.lc > t ∧ c.lvol ≥ (6/5) * c.avgVol) then none else
    if ¬ (round2 (c.lh * (1001/1000)) - round2 (min c.ll ((49/50) * t) - (1/5) * c.latr) > 0 ∧
        round2 (c.lh * (1001/1000)) - round2 (min c.ll ((49/50) * t) - (1/5) * c.latr) ≤
          round2 (c.lh * (1001/1000)) * (3/20)) then none else
    some
    { entry := round2 (c.lh * (1001/1000)),
      stop_loss := round2 (min c.ll ((49/50) * t) - (1/5) * c.latr),
      take_profit := round2 (round2 (c.lh * (1001/1000)) +
        2 * (round2 (c.lh * (1001/1000)) - round2 (min c.ll ((49/50) * t) - (1/5) * c.latr))),
      rr := 2, is_breakout := true, is_vol_surge := decide (c.lvol ≥ (3/2) * c.avgVol),
      volume_ratio := c.volumeRatio, resistance_level := none, breakout_pct := none,
      rs_vs_spy := c.rsVsSpy, tr_contraction_pct := none,
      is_trendline_breakout := true, is_kde_breakout := false, is_rs_lead := false,
      rs_ratio_today := rsRatio, rs_52w_high := rs52w, rs_blue_dot := blueDot,
      trendline := some t }

/-- The highest-level resistance zone (loop of lines 413-418, seeded at 0.0
so non-positive levels are never selected; the first maximum is kept). -/
def highestRes (c : VcpCtx) : Option SrZone :=
  c.resZones.foldl
    (fun acc z =>
      if z.level > (match acc with | none => (0:ℚ) | some b => b.level) then some z else acc)
    none

/-- PATH D — KDE horizontal breakout (lines 409-461). -/
def pathD (c : VcpCtx) (rsRatio rs52w : ℚ) (blueDot : Bool) : Option VcpSetup :=
  match highestRes c with
  | none => none
  | some hz =>
    if ¬ ((1/1000) ≤ (if hz.upper > 0 then (c.lc - hz.upper) / hz.upper else 0) ∧
        (if hz.upper > 0 then (c.lc - hz.upper) / hz.upper else 0) ≤ 1/40 ∧
        c.lvol ≥ (23/20) * c.avgVol ∧ c.rsVsSpy ≥ 0) then none else
    if ¬ (round2 (c.lh * (1001/1000)) - round2 (min c.ll hz.lower - (1/5) * c.latr) > 0 ∧
        round2 (c.lh * (1001/1000)) - round2 (min c.ll hz.lower - (1/5) * c.latr) ≤
          round2 (c.lh * (1001/1000)) * (3/20)) then none else
    some
    { entry := round2 (c.lh * (1001/1000)),
      stop_loss := round2 (min c.ll hz.lower - (1/5) * c.latr),
      take_profit := round2 (round2 (c.lh * (1001/1000)) +
        2 * (round2 (c.lh * (1001/1000)) - round2 (min c.ll hz.lower - (1/5) * c.latr))),
      rr := 2, is_breakout := true, is_vol_surge := decide (c.lvol ≥ (3/2) * c.avgVol),
      volume_ratio := c.volumeRatio, resistance_level := some hz.level,
      breakout_pct := some (round2 ((if hz.upper > 0 then (c.lc - hz.upper) / hz.upper else 0) * 100)),
      rs_vs_spy := c.rsVsSpy, tr_contraction_pct := none,
      is_trendline_breakout := false, is_kde_breakout := true, is_rs_lead := false,
      rs_ratio_today := rsRatio, rs_52w_high := rs52w, rs_blue_dot := blueDot,
      trendline := none }

/-- PATH E — RS-led early breakout (lines 463-509). -/
def pathE (c : VcpCtx) (rsRatio rs52w : ℚ) (blueDot : Bool) : Option VcpSetup :=
  match highestRes c with
  | none => none
  | some hz =>
    if ¬ blueDot then none else
    if ¬ ((if hz.upper > 0 then (hz.upper - c.lc) / hz.upper else 1) ≤ 3/100 ∧
        c.lc < hz.upper ∧ c.l8 > c.l20 ∧ c.lc > c.l50) then none else
    if ¬ (round2 (c.lh * (1001/1000)) - round2 (min c.ll hz.lower - (1/5) * c.latr) > 0 ∧
        round2 (c.lh * (1001/1000)) - round2 (min c.ll hz.lower - (1/5) * c.latr) ≤
          round2 (c.lh * (1001/1000)) * (3/20)) then none else
    some
    { entry := round2 (c.lh * (1001/1000)),
      stop_loss := round2 (min c.ll hz.lower - (1/5) * c.latr),
      take_profit := round2 (round2 (c.lh * (1001/1000)) +
        2 * (round2 (c.lh * (1001/1000)) - round2 (min c.ll hz.lower - (1/5) * c.latr))),
      rr := 2, is_breakout := true, is_vol_surge := false,
      volume_ratio := c.volumeRatio, resistance_level := some hz.level,
      breakout_pct := some (round2 ((if hz.upper > 0 then (hz.upper - c.lc) / hz.upper else 1) * 100)),
      rs_vs_spy := c.rsVsSpy, tr_contraction_pct := none,
      is_trendline_breakout := false, is_kde_breakout := false, is_rs_lead := true,
      rs_ratio_today := rsRatio, rs_52w_high := rs52w, rs_blue_dot := blueDot,
      trendline := none }

/-- The nearest resistance at most 5% above the close (loop of lines 555-564;
`best_dist` starts at infinity, strict improvement keeps the first minimum). -/
def nearestRes (c : VcpCtx) : Option (ℚ × SrZone) :=
  c.resZones.foldl
    (fun acc z =>
      if (decide (0 ≤ z.level - c.lc) && decide (z.level - c.lc ≤ z.level * (1/20)) &&
          (match acc with | none => true | some p => decide (z.level - c.lc < p.1))) = true then
        some (z.level - c.lc, z)
      else acc)
    none

/-- PATH A — dry coiled-spring base (lines 511-606); `fit` is the scipy
`curve_fit` parabola coefficients over the standardized last-15-close window
(`none` models a raised fit), and the `std < 1e-8` degeneracy guard is the
equivalent `variance < 1e-16`. -/
def pathA (bars : List Bar) (c : VcpCtx) (rsRatio rs52w : ℚ) (blueDot : Bool)
    (fit : Option (ℚ × ℚ × ℚ)) : Option VcpSetup :=
  if (trList bars).length < 26 then none else
  if ¬ (meanQ (lastN 5 (trList bars)) <
      meanQ (((trList bars).drop ((trList bars).length - 25)).take 20)) then none else
  if varQ (lastN (min 15 ((bars.map (fun b => b.close)).length - 5))
      (bars.map (fun b => b.close))) < 1/10^16 then none else
  if ¬ (match fit with
    | none => false
    | some (a, b, _) =>
      decide (a > 1/200 ∧
        0 ≤ (if |a| > 1/10^8 then -b / (2*a) else -1) ∧
        (if |a| > 1/10^8 then -b / (2*a) else -1) ≤
          ((min 15 ((bars.map (fun b => b.close)).length - 5) : ℕ) : ℚ))) = true then none else
  match nearestRes c with
  | none => none
  | some dz =>
    if ¬ ((c.lc ≥ dz.2.lower ∧ c.lvol ≥ (3/2) * c.avgVol) ∨
        (c.lc < dz.2.lower ∧ meanQ (lastN 3 (bars.map (fun b => b.volume))) < c.avgVol))
    then none else
    if round2 (c.lh * (1001/1000)) - round2 (min c.ll dz.2.lower - (1/5) * c.latr) ≤ 0 ∨
        round2 (c.lh * (1001/1000)) - round2 (min c.ll dz.2.lower - (1/5) * c.latr) >
          round2 (c.lh * (1001/1000)) * (3/20) then none else
    some
    { entry := round2 (c.lh * (1001/1000)),
      stop_loss := round2 (min c.ll dz.2.lower - (1/5) * c.latr),
      take_profit := round2 (round2 (c.lh * (1001/1000)) +
        2 * (round2 (c.lh * (1001/1000)) - round2 (min c.ll dz.2.lower - (1/5) * c.latr))),
      rr := 2, is_breakout := decide (c.lc ≥ dz.2.lower ∧ c.lvol ≥ (3/2) * c.avgVol),
      is_vol_surge := decide (c.lvol ≥ (3/2) * c.avgVol),
      volume_ratio := c.volumeRatio, resistance_level := some dz.2.level,
      breakout_pct := none, rs_vs_spy := c.rsVsSpy,
      tr_contraction_pct := some (round1 ((1 - meanQ (lastN 5 (trList bars)) /
        meanQ (((trList bars).drop ((trList bars).length - 25)).take 20)) * 100)),
      is_trendline_breakout := false, is_kde_breakout := false, is_rs_lead := false,
      rs_ratio_today := rsRatio, rs_52w_high := rs52w, rs_blue_dot := blueDot,
      trendline := none }

/-- `scan_vcp(ticker, df, sr_zones, spy_3m_return, rs_ratio, rs_52w_high,
rs_blue_dot)`: the shared gates, then the five paths in source order with
first match winning (path B's failed risk gate falls through, like the
code's `pass`). -/
def scanVcp (bars : List Bar) (zones : List SrZone) (spy3m rsRatio rs52w : ℚ)
    (blueDot : Bool) (tl : Option ℚ) (fit : Option (ℚ × ℚ × ℚ)) : Option VcpSetup :=
  if bars.length < 60 then none else
  if bars.length < 55 then none else
  if ¬ ((vcpQuantities bars zones spy3m).l8 > (vcpQuantities bars zones spy3m).l20 ∧
      (vcpQuantities bars zones spy3m).lc > (vcpQuantities bars zones spy3m).l50)
  then none else
  if (vcpQuantities bars zones spy3m).avgVol ≤ 0 then none else
  match pathB (vcpQuantities bars zones spy3m) rsRatio rs52w blueDot with
  | some r => some r
  | none =>
    match pathC (vcpQuantities bars zones spy3m) rsRatio rs52w blueDot tl with
    | some r => some r
    | none =>
      match pathD (vcpQuantities bars zones spy3m) rsRatio rs52w blueDot with
      | some r => some r
      | none =>
        match pathE (vcpQuantities bars zones spy3m) rsRatio rs52w blueDot with
        | some r => some r
        | none => pathA bars (vcpQuantities bars zones spy3m) rsRatio rs52w blueDot fit

inductive LevelKind | KDE | TDL
deriving DecidableEq, Repr

/-- The watchlist record of `scan_near_breakout` (lines 205-216): a Setup of
type WATCHLIST with placeholder risk fields `stop_loss = take_profit = 0`. -/
structure NearSetup where
  entry : ℚ
  stop_loss : ℚ
  take_profit : ℚ
  rr : ℚ
  distance_pct : ℚ
  pattern_type : LevelKind
  level : ℚ
deriving DecidableEq, Repr

/-- The best (closest) level within 1.5% above the close: first the KDE
resistance zones (lines 180-189), then the trendline, which wins only when
strictly closer (lines 192-200). -/
def nearBest (lc : ℚ) (zones : List SrZone) (tl : Option ℚ) :
    Option (ℚ × ℚ × LevelKind) :=
  let z0 : Option (ℚ × ℚ × LevelKind) :=
    (zones.filter (fun z => decide (z.kind = ZoneKind.RESISTANCE))).foldl
      (fun acc z =>
        if (decide (z.upper > lc) && decide ((z.upper - lc) / z.upper ≤ 3/200) &&
            (match acc with | none => true | some p => decide ((z.upper - lc) / z.upper < p.1)))
            = true then
          some ((z.upper - lc) / z.upper, z.level, LevelKind.KDE)
        else acc)
      none
  match tl with
  | none => z0
  | some t =>
    if (decide (t > lc) && decide ((t - lc) / t ≤ 3/200) &&
        (match z0 with | none => true | some p => decide ((t - lc) / t < p.1))) = true then
      some ((t - lc) / t, t, LevelKind.TDL)
    else z0

/-- `scan_near_breakout(ticker, df, sr_zones, trendline)`. -/
def scanNearBreakout (bars : List Bar) (zones : List SrZone) (tl : Option ℚ) :
    Option NearSetup :=
  if bars.length < 20 then none else
  match nearBest (lastQ (bars.map (fun b => b.close))) zones tl with
  | none => none
  | some dlk =>
    some
      { entry := round2 (lastQ (bars.map (fun b => b.close))), stop_loss := 0,
        take_profit := 0, rr := 0, distance_pct := round2 (dlk.1 * 100),
        pattern_type := dlk.2.2, level := round2 dlk.2.1 }

/-! ### Engine 3 — tactical pullback scanner (`scan_pullback`, `scan_relaxed_pullback`) -/

/-- Typical-price series of `cci` (indicators.py line 62). -/
def tpList (bars : List Bar) : List ℚ :=
  bars.map (fun b => (b.high + b.low + b.close) / 3)

/-- Mean absolute deviation of a rolling window (indicators.py lines 64-66). -/
def meanDev (l : List ℚ) : ℚ := meanQ (l.map (fun x => |x - meanQ l|))

/-- Last value of `cci(high, low, close, 20)` (indicators.py lines 51-70);
`none` is the NaN the source produces when fewer than 20 rows exist
(`min_periods`) or the window's mean deviation is zero (the
`denom.replace(0, np.nan)` of line 69), both caught by engine3's `isnan`
guard; the constant `0.015` is `3/200`. -/
def cciLast (bars : List Bar) : Option ℚ :=
  if bars.length < 20 then none
  else if meanDev (lastN 20 (tpList bars)) = 0 then none
  else some ((lastQ (tpList bars) - meanQ (lastN 20 (tpList bars))) /
    ((3/200) * meanDev (lastN 20 (tpList bars))))

/-- Last-bar quantities shared by both engine3 scanners (lines 50-77 and
167-195). -/
structure PullCtx where
  lc : ℚ
  lh : ℚ
  ll : ℚ
  l8 : ℚ
  l20 : ℚ
  l50 : ℚ
  latr : ℚ
  cci_today : ℚ
  cci_prev : ℚ
deriving DecidableEq, Repr

/-- Shared preparation of `scan_pullback` / `scan_relaxed_pullback`
(engine3.py lines 45-80 and 162-198): the length guard (`< 60`; the NaN-free
embedding subsumes the `dropna < 55` and `cci_clean < 2` checks) and the
last-bar indicator values; yesterday's CCI is the rolling window ending one
row earlier, and the `isnan` guard of lines 79/197 is the defined-ness of
the two CCI values. -/
def pullContext (bars : List Bar) : Option PullCtx :=
  if bars.length < 60 then none
  else match cciLast bars, cciLast bars.dropLast with
  | some cciT, some cciP =>
      some { lc := lastQ (bars.map (fun b => b.close)),
             lh := lastQ (bars.map (fun b => b.high)),
             ll := lastQ (bars.map (fun b => b.low)),
             l8 := emaLast 8 (bars.map (fun b => b.close)),
             l20 := emaLast 20 (bars.map (fun b => b.close)),
             l50 := smaLast 50 (bars.map (fun b => b.close)),
             latr := atrLast bars, cci_today := cciT, cci_prev := cciP }
  | _, _ => none

/-- Fields of the PULLBACK dict returned by both engine3 scanners
(lines 128-141 and 250-264). -/
structure PullSetup where
  entry : ℚ
  stop_loss : ℚ
  take_profit : ℚ
  rr : ℚ
  cci_today : ℚ
  cci_yesterday : ℚ
  support_level : ℚ
  ema8 : ℚ
  ema20 : ℚ
  is_relaxed : Bool
deriving DecidableEq, Repr

/-- Support-zone contact test of lines 96-99: the low dips into the zone
with a 0.5% tolerance, or the close lies inside it. -/
def supportTouch (c : PullCtx) (z : SrZone) : Bool :=
  decide ((z.lower * (199/200) ≤ c.ll ∧ c.ll ≤ z.upper * (201/200)) ∨
    (z.lower ≤ c.lc ∧ c.lc ≤ z.upper))

/-- First touched support zone (the `for`/`break` loop of lines 95-101). -/
def nearestSup (c : PullCtx) (zones : List SrZone) : Option SrZone :=
  (zones.filter (fun z => decide (z.kind = ZoneKind.SUPPORT))).find? (supportTouch c)

/-- Engine3 `scan_pullback(ticker, df, sr_zones)` (lines 37-145): the filter
chain trend → value-zone retest → support touch → pin-bar rejection → CCI
hook, then `entry = round(high × 1.001, 2)`,
`stop = round(min(low, zone lower) − 0.2 × ATR14, 2)`, the shared risk gate
and the 1:2 target. -/
def scanPullback (bars : List Bar) (zones : List SrZone) : Option PullSetup :=
  match pullContext bars with
  | none => none
  | some c =>
    if ¬ (c.l8 > c.l20 ∧ c.lc > c.l50) then none else
    if ¬ (c.ll ≤ c.l8 ∨ c.ll ≤ c.l20) then none else
    match nearestSup c zones with
    | none => none
    | some nsup =>
      if c.lc < c.l20 then none else
      if ¬ (c.cci_prev < -100 ∧ c.cci_today > c.cci_prev) then none else
      if round2 (c.lh * (1001/1000)) - round2 (min c.ll nsup.lower - (1/5) * c.latr) ≤ 0 ∨
          round2 (c.lh * (1001/1000)) - round2 (min c.ll nsup.lower - (1/5) * c.latr) >
            round2 (c.lh * (1001/1000)) * (3/20) then none else
      some
      { entry := round2 (c.lh * (1001/1000)),
        stop_loss := round2 (min c.ll nsup.lower - (1/5) * c.latr),
        take_profit := round2 (round2 (c.lh * (1001/1000)) +
          2 * (round2 (c.lh * (1001/1000)) - round2 (min c.ll nsup.lower - (1/5) * c.latr))),
        rr := 2, cci_today := round2 c.cci_today, cci_yesterday := round2 c.cci_prev,
        support_level := nsup.level, ema8 := round2 c.l8, ema20 := round2 c.l20,
        is_relaxed := false }

/-- Defensive support level of the relaxed scanner (line 235): the lowest
support-zone level, or the 50-SMA when no support zone exists (Python's
`min` over a nonempty list keeps the first minimum). -/
def relaxedSupport (l50 : ℚ) (zones : List SrZone) : ℚ :=
  match (zones.filter (fun z => decide (z.kind = ZoneKind.SUPPORT))).map
      (fun z => z.level) with
  | [] => l50
  | l :: ls => ls.foldl min l

/-- Engine3 `scan_relaxed_pullback(ticker, df, sr_zones)` (lines 148-268):
trend filter, buffer zone within 0.8% (`1/125`) of a positive EMA-8 or
EMA-20 (a non-positive EMA gives `dist = inf`, never near), CCI early
signal, low-volume check, support-below-price check, then the same risk
math with `stop_base = min(low, support_level)`. -/
def scanRelaxedPullback (bars : List Bar) (zones : List SrZone) : Option PullSetup :=
  match pullContext bars with
  | none => none
  | some c =>
    if ¬ (c.l8 > c.l20 ∧ c.lc > c.l50) then none else
    if ¬ ((c.l8 > 0 ∧ |c.lc - c.l8| / c.l8 ≤ 1/125) ∨
          (c.l20 > 0 ∧ |c.lc - c.l20| / c.l20 ≤ 1/125)) then none else
    if ¬ (c.cci_today > c.cci_prev ∧ c.cci_prev < 0) then none else
    if smaLast 50 (bars.map (fun b => b.volume)) ≤ 0 then none else
    if meanQ (lastN 3 (bars.map (fun b => b.volume))) >
        smaLast 50 (bars.map (fun b => b.volume)) then none else
    if relaxedSupport c.l50 zones ≥ c.lc then none else
    if round2 (c.lh * (1001/1000)) -
          round2 (min c.ll (relaxedSupport c.l50 zones) - (1/5) * c.latr) ≤ 0 ∨
        round2 (c.lh * (1001/1000)) -
            round2 (min c.ll (relaxedSupport c.l50 zones) - (1/5) * c.latr) >
          round2 (c.lh * (1001/1000)) * (3/20) then none else
    some
    { entry := round2 (c.lh * (1001/1000)),
      stop_loss := round2 (min c.ll (relaxedSupport c.l50 zones) - (1/5) * c.latr),
      take_profit := round2 (round2 (c.lh * (1001/1000)) +
        2 * (round2 (c.lh * (1001/1000)) -
          round2 (min c.ll (relaxedSupport c.l50 zones) - (1/5) * c.latr))),
      rr := 2, cci_today := round2 c.cci_today, cci_yesterday := round2 c.cci_prev,
      support_level := relaxedSupport c.l50 zones, ema8 := round2 c.l8,
      ema20 := round2 c.l20, is_relaxed := true }

/-! ### Claim C1 — the risk-math invariant -/

/-- The risk invariant of the spec for a breakout setup. -/
def riskInv (r : VcpSetup) : Prop :=
  r.take_profit - r.entry = 2 * (r.entry - r.stop_loss) ∧
  0 < r.entry - r.stop_loss ∧ r.entry - r.stop_loss ≤ (3/20) * r.entry

/-- The risk invariant for a base-pattern setup. -/
def riskInvB (r : BaseSetup) : Prop :=
  r.take_profit - r.entry = 2 * (r.entry - r.stop_loss) ∧
  0 < r.entry - r.stop_loss ∧ r.entry - r.stop_loss ≤ (3/20) * r.entry

/-- The risk invariant for a tactical-pullback setup. -/
def riskInvP (r : PullSetup) : Prop :=
  r.take_profit - r.entry = 2 * (r.entry - r.stop_loss) ∧
  0 < r.entry - r.stop_loss ∧ r.entry - r.stop_loss ≤ (3/20) * r.entry

/-- Cent-exactness of the 1:2 target: with entry and stop both rounded to
cents, `round(entry + 2*risk, 2)` is exact. -/
theorem tp_exact {e s : ℚ} (he : IsCent e) (hs : IsCent s) :
    round2 (e + 2 * (e - s)) - e = 2 * (e - s) := by
  have h : IsCent (e + 2 * (e - s)) := he.add ((he.sub hs).two_mul)
  rw [round2_eq_self h]
  ring

theorem riskInv_of_gate {e s : ℚ} (he : IsCent e) (hs : IsCent s)
    (h : e - s > 0 ∧ e - s ≤ e * (3/20)) :
    round2 (e + 2 * (e - s)) - e = 2 * (e - s) ∧ 0 < e - s ∧ e - s ≤ (3/20) * e :=
  ⟨tp_exact he hs, h.1, by linarith [h.2]⟩

theorem riskInv_of_gateNeg {e s : ℚ} (he : IsCent e) (hs : IsCent s)
    (h : ¬ (e - s ≤ 0 ∨ e - s > e * (3/20))) :
    round2 (e + 2 * (e - s)) - e = 2 * (e - s) ∧ 0 < e - s ∧ e - s ≤ (3/20) * e := by
  push_neg at h
  exact ⟨tp_exact he hs, h.1, by linarith [h.2]⟩

theorem pathB_riskInv {c : VcpCtx} {r5 r52 : ℚ} {bd : Bool} {r : VcpSetup}
    (h : pathB c r5 r52 bd = some r) : riskInv r := by
  unfold pathB at h
  split_ifs at h with h1
  rcases hb : brokenMax c with _ | z
  · rw [hb] at h
    exact Option.noConfusion h
  · rw [hb] at h
    dsimp only at h
    split_ifs at h <;>
      first
        | exact Option.noConfusion h
        | (injection h with h; subst h;
           exact riskInv_of_gateNeg (round2_isCent _) (round2_isCent _) (by assumption))

theorem pathC_riskInv {c : VcpCtx} {r5 r52 : ℚ} {bd : Bool} {tl : Option ℚ} {r : VcpSetup}
    (h : pathC c r5 r52 bd tl = some r) : riskInv r := by
  unfold pathC at h
  rcases tl with _ | t
  · exact Option.noConfusion h
  · dsimp only at h
    split_ifs at h <;>
      first
        | exact Option.noConfusion h
        | (injection h with h; subst h;
           exact riskInv_of_gate (round2_isCent _) (round2_isCent _) (by assumption))

theorem pathD_riskInv {c : VcpCtx} {r5 r52 : ℚ} {bd : Bool} {r : VcpSetup}
    (h : pathD c r5 r52 bd = some r) : riskInv r := by
  unfold pathD at h
  rcases hz : highestRes c with _ | hzv
  · rw [hz] at h
    exact Option.noConfusion h
  · rw [hz] at h
    dsimp only at h
    split_ifs at h <;>
      first
        | exact Option.noConfusion h
        | (injection h with h; subst h;
           exact riskInv_of_gate (round2_isCent _) (round2_isCent _) (by assumption))

theorem pathE_riskInv {c : VcpCtx} {r5 r52 : ℚ} {bd : Bool} {r : VcpSetup}
    (h : pathE c r5 r52 bd = some r) : riskInv r := by
  unfold pathE at h
  rcases hz : highestRes c with _ | hzv
  · rw [hz] at h
    exact Option.noConfusion h
  · rw [hz] at h
    dsimp only at h
    split_ifs at h <;>
      first
        | exact Option.noConfusion h
        | (injection h with h; subst h;
           exact riskInv_of_gate (round2_isCent _) (round2_isCent _) (by assumption))

theorem pathA_riskInv {bars : List Bar} {c : VcpCtx} {r5 r52 : ℚ} {bd : Bool}
    {fit : Option (ℚ × ℚ × ℚ)} {r : VcpSetup}
    (h : pathA bars c r5 r52 bd fit = some r) : riskInv r := by
  unfold pathA at h
  split_ifs at h with h1 h2 h3 h4
  rcases hz : nearestRes c with _ | dz
  · rw [hz] at h
    exact Option.noConfusion h
  · rw [hz] at h
    dsimp only at h
    split_ifs at h <;>
      first
        | exact Option.noConfusion h
        | (injection h with h; subst h;
           exact riskInv_of_gateNeg (round2_isCent _) (round2_isCent _) (by assumption))

theorem cup_riskInv {bars : List Bar} {sp rr : ℚ} {bd : Bool} {fitA : Option ℚ}
    {r : BaseSetup} (h : scanCupHandle bars sp rr bd fitA = some r) : riskInvB r := by
  unfold scanCupHandle at h
  rcases hc : cupContext bars fitA with _ | c
  · rw [hc] at h
    exact Option.noConfusion h
  · rw [hc] at h
    dsimp only at h
    split at h
    · exact Option.noConfusion h
    · split_ifs at h <;>
        first
          | exact Option.noConfusion h
          | (injection h with h; subst h;
             exact riskInv_of_gateNeg (round2_isCent _) (round2_isCent _) (by assumption))

theorem flat_riskInv {bars : List Bar} {sp rr : ℚ} {bd : Bool}
    {r : BaseSetup} (h : scanFlatBase bars sp rr bd = some r) : riskInvB r := by
  unfold scanFlatBase at h
  rcases hc : flatContext bars with _ | c
  · rw [hc] at h
    exact Option.noConfusion h
  · rw [hc] at h
    dsimp only at h
    split at h
    · exact Option.noConfusion h
    · split_ifs at h <;>
        first
          | exact Option.noConfusion h
          | (injection h with h; subst h;
             exact riskInv_of_gateNeg (round2_isCent _) (round2_isCent _) (by assumption))

theorem pullback_riskInv {bars : List Bar} {zones : List SrZone} {r : PullSetup}
    (h : scanPullback bars zones = some r) : riskInvP r := by
  unfold scanPullback at h
  rcases hc : pullContext bars with _ | c
  · rw [hc] at h
    exact Option.noConfusion h
  · rw [hc] at h
    dsimp only at h
    rcases hz : nearestSup c zones with _ | nsup
    · rw [hz] at h
      dsimp only at h
      split_ifs at h <;> exact Option.noConfusion h
    · rw [hz] at h
      dsimp only at h
      split_ifs at h <;>
        first
          | exact Option.noConfusion h
          | (injection h with h; subst h;
             exact riskInv_of_gateNeg (round2_isCent _) (round2_isCent _) (by assumption))

theorem relaxed_riskInv {bars : List Bar} {zones : List SrZone} {r : PullSetup}
    (h : scanRelaxedPullback bars zones = some r) : riskInvP r := by
  unfold scanRelaxedPullback at h
  rcases hc : pullContext bars with _ | c
  · rw [hc] at h
    exact Option.noConfusion h
  · rw [hc] at h
    dsimp only at h
    split_ifs at h <;>
      first
        | exact Option.noConfusion h
        | (injection h with h; subst h;
           exact riskInv_of_gateNeg (round2_isCent _) (round2_isCent _) (by assumption))

/-- C1 (amended): every setup emitted by the five breakout paths of
`scan_vcp`, by both base-pattern detectors, and by both tactical-pullback
scanners of engine3 satisfies `take_profit - entry = 2 × (entry -
stop_loss)` exactly and `0 < entry - stop_loss ≤ 0.15 × entry`; the
watchlist record of `scan_near_breakout` is the refuted exception. -/
theorem c1 :
    (∀ (bars : List Bar) (zones : List SrZone) (spy3m rsRatio rs52w : ℚ)
      (blueDot : Bool) (tl : Option ℚ) (fit : Option (ℚ × ℚ × ℚ)) (r : VcpSetup),
      scanVcp bars zones spy3m rsRatio rs52w blueDot tl fit = some r → riskInv r) ∧
    (∀ (bars : List Bar) (sp rr : ℚ) (bd : Bool) (fitA : Option ℚ) (r : BaseSetup),
      scanCupHandle bars sp rr bd fitA = some r → riskInvB r) ∧
    (∀ (bars : List Bar) (sp rr : ℚ) (bd : Bool) (r : BaseSetup),
      scanFlatBase bars sp rr bd = some r → riskInvB r) ∧
    (∀ (bars : List Bar) (zones : List SrZone) (r : PullSetup),
      scanPullback bars zones = some r → riskInvP r) ∧
    (∀ (bars : List Bar) (zones : List SrZone) (r : PullSetup),
      scanRelaxedPullback bars zones = some r → riskInvP r) := by
  refine ⟨?_, fun _ _ _ _ _ _ h => cup_riskInv h, fun _ _ _ _ _ h => flat_riskInv h,
    fun _ _ _ h => pullback_riskInv h, fun _ _ _ h => relaxed_riskInv h⟩
  intro bars zones spy3m rsRatio rs52w blueDot tl fit r h
  unfold scanVcp at h
  split_ifs at h
  rcases hB : pathB (vcpQuantities bars zones spy3m) rsRatio rs52w blueDot with _ | rB
  case neg.some =>
    rw [hB] at h
    injection h with h
    subst h
    exact pathB_riskInv hB
  case neg.none =>
  rw [hB] at h
  dsimp only at h
  rcases hC : pathC (vcpQuantities bars zones spy3m) rsRatio rs52w blueDot tl with _ | rC
  case some =>
    rw [hC] at h
    injection h with h
    subst h
    exact pathC_riskInv hC
  case none =>
  rw [hC] at h
  dsimp only at h
  rcases hD : pathD (vcpQuantities bars zones spy3m) rsRatio rs52w blueDot with _ | rD
  case some =>
    rw [hD] at h
    injection h with h
    subst h
    exact pathD_riskInv hD
  case none =>
  rw [hD] at h
  dsimp only at h
  rcases hE : pathE (vcpQuantities bars zones spy3m) rsRatio rs52w blueDot with _ | rE
  case some =>
    rw [hE] at h
    injection h with h
    subst h
    exact pathE_riskInv hE
  case none =>
  rw [hE] at h
  dsimp only at h
  exact pathA_riskInv h

/-! ### Claim C2 — path priority -/

theorem pathB_shape {c : VcpCtx} {r5 r52 : ℚ} {bd : Bool} {r : VcpSetup}
    (h : pathB c r5 r52 bd = some r) :
    r.tr_contraction_pct = none ∧ r.is_breakout = true ∧ r.is_rs_lead = false ∧
    r.is_trendline_breakout = false ∧ r.is_kde_breakout = false ∧
    r.breakout_pct.isSome = true := by
  unfold pathB at h
  split_ifs at h with h1
  rcases hb : brokenMax c with _ | z
  · rw [hb] at h
    exact Option.noConfusion h
  · rw [hb] at h
    dsimp only at h
    split_ifs at h <;>
      first
        | exact Option.noConfusion h
        | (injection h with h; subst h; exact ⟨rfl, rfl, rfl, rfl, rfl, rfl⟩)

theorem pathA_shape {bars : List Bar} {c : VcpCtx} {r5 r52 : ℚ} {bd : Bool}
    {fit : Option (ℚ × ℚ × ℚ)} {r : VcpSetup}
    (h : pathA bars c r5 r52 bd fit = some r) : r.tr_contraction_pct ≠ none := by
  unfold pathA at h
  split_ifs at h with h1 h2 h3 h4
  rcases hz : nearestRes c with _ | dz
  · rw [hz] at h
    exact Option.noConfusion h
  · rw [hz] at h
    dsimp only at h
    split_ifs at h <;>
      first
        | exact Option.noConfusion h
        | (injection h with h; subst h; exact fun hcon => Option.noConfusion hcon)

/-- C2: the five detection paths are evaluated confirmed breakout first, then
trendline, KDE horizontal, RS-led, dry coiled-spring base, with first match
winning; in particular, on any input where both the confirmed-breakout path
and the dry-base path fully qualify (pattern conditions and risk gate), the
scan emits the confirmed-breakout record — identified by
`tr_contraction_pct = none`, `is_breakout = true` and a breakout percentage —
and never the dry-base record (which always carries `tr_contraction_pct`). -/
theorem c2 (bars : List Bar) (zones : List SrZone) (spy3m rsRatio rs52w : ℚ)
    (blueDot : Bool) (tl : Option ℚ) (fit : Option (ℚ × ℚ × ℚ)) (rB rA : VcpSetup)
    (hlen : 60 ≤ bars.length)
    (htrend : (vcpQuantities bars zones spy3m).l8 > (vcpQuantities bars zones spy3m).l20 ∧
      (vcpQuantities bars zones spy3m).lc > (vcpQuantities bars zones spy3m).l50)
    (hvol : 0 < (vcpQuantities bars zones spy3m).avgVol)
    (hB : pathB (vcpQuantities bars zones spy3m) rsRatio rs52w blueDot = some rB)
    (hA : pathA bars (vcpQuantities bars zones spy3m) rsRatio rs52w blueDot fit = some rA) :
    scanVcp bars zones spy3m rsRatio rs52w blueDot tl fit = some rB ∧
    rB.tr_contraction_pct = none ∧ rB.is_breakout = true ∧ rB.is_rs_lead = false ∧
    rB.is_trendline_breakout = false ∧ rB.is_kde_breakout = false ∧
    rA.tr_contraction_pct ≠ none := by
  obtain ⟨hs1, hs2, hs3, hs4, hs5, _⟩ := pathB_shape hB
  refine ⟨?_, hs1, hs2, hs3, hs4, hs5, pathA_shape hA⟩
  unfold scanVcp
  rw [if_neg (by omega : ¬ bars.length < 60), if_neg (by omega : ¬ bars.length < 55),
    if_neg (not_not_intro htrend), if_neg (not_le.mpr hvol), hB]

/-- 60 rising bars (close 90 + i/5) with wide ranges in bars 35-54 and a
tight, dried-up tail whose last bar carries a 1.6x volume surge. -/
def c2Closes : List ℚ := (List.range 60).map (fun i => 90 + ((i : ℕ) : ℚ) / 5)

def c2Ranges : List ℚ := List.replicate 35 2 ++ List.replicate 20 4 ++ List.replicate 5 1

def c2Vols : List ℚ := List.replicate 57 1000 ++ [200, 200, 1600]

def c2Bars : List Bar :=
  List.zipWith (fun c tv => ⟨c + tv.1 / 2, c - tv.1 / 2, c, tv.2⟩)
    c2Closes (c2Ranges.zip c2Vols)

/-- A broken resistance zone 0.69% below the close and an unbroken one 2.2
points above it: the input qualifies for the confirmed-breakout path and for
the dry coiled-spring path simultaneously. -/
def c2Zones : List SrZone :=
  [⟨504/5, 1011/10, 201/2, ZoneKind.RESISTANCE, 1⟩,
   ⟨104, 1043/10, 1037/10, ZoneKind.RESISTANCE, 1⟩]

set_option maxRecDepth 100000 in
unseal Rat.add Rat.mul Rat.inv Rat.sub in
/-- Witness for C2: a concrete series on which both the confirmed-breakout
path and the dry-base path fire, and the scan emits the confirmed breakout. -/
theorem c2_witness :
    ∃ rB rA : VcpSetup,
      pathB (vcpQuantities c2Bars c2Zones 0) 0 0 false = some rB ∧
      pathA c2Bars (vcpQuantities c2Bars c2Zones 0) 0 0 false (some (1, -10, 0)) = some rA ∧
      scanVcp c2Bars c2Zones 0 0 0 false none (some (1, -10, 0)) = some rB ∧
      rB.tr_contraction_pct = none ∧ rB.is_breakout = true ∧
      rA.tr_contraction_pct ≠ none := by
  have hsB : (pathB (vcpQuantities c2Bars c2Zones 0) 0 0 false).isSome = true := by decide
  obtain ⟨rB, hB⟩ := Option.isSome_iff_exists.mp hsB
  have hsA : (pathA c2Bars (vcpQuantities c2Bars c2Zones 0) 0 0 false
      (some (1, -10, 0))).isSome = true := by decide
  obtain ⟨rA, hA⟩ := Option.isSome_iff_exists.mp hsA
  have h := c2 c2Bars c2Zones 0 0 0 false none (some (1, -10, 0)) rB rA
    (by decide) (by decide) (by decide) hB hA
  exact ⟨rB, rA, hB, hA, h.1, h.2.1, h.2.2.1, h.2.2.2.2.2.2⟩

/-- 20 flat bars at close 100. -/
def c1wBars : List Bar := (List.range 20).map (fun _ => ⟨101, 99, 100, 1000⟩)

/-- One resistance zone whose upper bound sits 0.99% above the close. -/
def c1wZones : List SrZone := [⟨504/5, 101, 100, ZoneKind.RESISTANCE, 1⟩]

set_option maxRecDepth 100000 in
unseal Rat.add Rat.mul Rat.inv Rat.sub in
/-- C1 (counterexample): the watchlist path emits a Setup record (setup_type
WATCHLIST, appended to the same collected-setups list by main.py) whose
placeholder `stop_loss = take_profit = 0` violates both the 1:2 target
equation and the risk bound, refuting the claim for "every emitted Setup
record ... any engine path". -/
theorem c1_counterexample :
    ∃ w : NearSetup, scanNearBreakout c1wBars c1wZones none = some w ∧
      ¬ (w.take_profit - w.entry = 2 * (w.entry - w.stop_loss) ∧
        0 < w.entry - w.stop_loss ∧ w.entry - w.stop_loss ≤ (3/20) * w.entry) := by
  have hs : (scanNearBreakout c1wBars c1wZones none).isSome = true := by decide
  obtain ⟨w, hw⟩ := Option.isSome_iff_exists.mp hs
  refine ⟨w, hw, ?_⟩
  have h2 : ((scanNearBreakout c1wBars c1wZones none).getD
        ⟨0, 0, 0, 0, 0, LevelKind.KDE, 0⟩).take_profit = 0 ∧
      ((scanNearBreakout c1wBars c1wZones none).getD
        ⟨0, 0, 0, 0, 0, LevelKind.KDE, 0⟩).entry = 100 ∧
      ((scanNearBreakout c1wBars c1wZones none).getD
        ⟨0, 0, 0, 0, 0, LevelKind.KDE, 0⟩).stop_loss = 0 := by
    decide
  rw [hw, Option.getD_some] at h2
  rintro ⟨heq, -, -⟩
  rw [h2.1, h2.2.1, h2.2.2] at heq
  norm_num at heq

/-- 60 bars: a steady quarter-point ramp, an oversold dip to 95 on the
penultimate bar, and a recovery bar closing at 105 with a low of 98 back in
the value zone. -/
def pbBars : List Bar :=
  ((List.range 58).map (fun i => (⟨90 + (i : ℚ) / 4, 90 + (i : ℚ) / 4,
      90 + (i : ℚ) / 4, 1000⟩ : Bar)))
  ++ [⟨95, 95, 95, 1000⟩, ⟨105, 98, 105, 1000⟩]

/-- One support zone containing the last close. -/
def pbZones : List SrZone := [⟨105, 106, 104, ZoneKind.SUPPORT, 1⟩]

set_option maxRecDepth 100000 in
unseal Rat.add Rat.mul Rat.inv Rat.sub in
/-- Witness for C1: the risk invariant holds for a concretely emitted
confirmed-breakout setup and for a concretely emitted pullback setup. -/
theorem c1_witness :
    (∃ r : VcpSetup,
      scanVcp c2Bars c2Zones 0 0 0 false none (some (1, -10, 0)) = some r ∧ riskInv r) ∧
    (∃ q : PullSetup, scanPullback pbBars pbZones = some q ∧ riskInvP q) := by
  have hs : (scanVcp c2Bars c2Zones 0 0 0 false none (some (1, -10, 0))).isSome = true := by
    decide
  obtain ⟨r, hr⟩ := Option.isSome_iff_exists.mp hs
  have hp : (scanPullback pbBars pbZones).isSome = true := by decide
  obtain ⟨q, hq⟩ := Option.isSome_iff_exists.mp hp
  exact ⟨⟨r, hr, c1.1 c2Bars c2Zones 0 0 0 false none (some (1, -10, 0)) r hr⟩,
    ⟨q, hq, c1.2.2.2.1 pbBars pbZones q hq⟩⟩

unseal Rat.add Rat.mul Rat.inv Rat.sub in
/-- Witness for C10: a concrete high series with peaks 100 (day 0) and
95 (day 8) counts both defining peaks as touches. -/
theorem c10_witness :
    2 ≤ touchCount [100, 99, 98, 95] [0, 3, 5, 8] 100 ((95 - 100) / ((8 : ℤ) : ℚ)) := by
  exact c10 [100, 99, 98, 95] [0, 3, 5, 8] 100 95 8 0 3 (by decide) (by decide) (by decide)
    (by rfl) (by rfl) (by norm_num) (by norm_num) (by decide)

end Swing
